import Mathlib

/-!
The two entrypoints of postgres_exporter.

A shallow embedding of `cmd/postgres_exporter/main.go` (namespace `PostgresExporter`)
and of the older `cmd/postgres_exporter/postgres_exporter.go` (namespace `Legacy`).

Both `main` functions are glue: they read flags, call into libraries and decide how the
process ends.  A run is modelled by the sequence of calls it makes (its trace) and by the
way it ends (its status).  The results of the calls whose outcome steers `main` are the
environment of the run; the flag values are its input.

Go semantics used below: a deferred call runs when the surrounding function returns or
panics; `os.Exit` ends the process at once and deferred calls do not run; `log.Fatal`
logs and then calls `os.Exit(1)`; a panic that is not recovered ends the process with
exit code 2.  `http.Handle` and `http.HandleFunc` register with `http.DefaultServeMux`,
on which no pattern is registered when `main` starts; `ServeMux.Handle` panics on an empty
pattern and on a pattern that is registered already.  The other library calls are taken
to return; the listener may also serve forever.
-/

/-! ## Shared vocabulary -/

/-- How a run of `main` ends. -/
inductive Status
  /-- `main` returned: the process ends with exit code 0. -/
  | returned
  /-- `os.Exit(code)` was called. -/
  | exited (code : Nat)
  /-- A panic with message `msg`: deferred calls run, then the process ends with exit
  code 2. -/
  | panicked (msg : String)
  /-- The listener never returned: the process keeps serving. -/
  | serving
  deriving DecidableEq, Repr

/-- Exit code of a run that terminates. -/
def Status.exitCode : Status → Option Nat
  | .returned => some 0
  | .exited code => some code
  | .panicked _ => some 2
  | .serving => none

/-- Whether the deferred calls of `main` run when the run ends this way: they run when
`main` returns and when it panics; `os.Exit` skips them; while the listener serves, `main`
has not ended. -/
def Status.runsDeferred : Status → Bool
  | .returned => true
  | .panicked _ => true
  | .exited _ => false
  | .serving => false

/-- What a call of `ListenAndServe` does: it blocks forever or it returns an error value
(`none` is Go's `nil`). -/
inductive ListenResult
  | blocks
  | returns (err : Option String)
  deriving DecidableEq, Repr

/-- Log levels of go-kit's `level` package that the entrypoints use. -/
inductive Level
  | warn
  | error
  deriving DecidableEq, Repr

/-! ## `strings.Split` and `fmt.Sprintf("%v", ...)` -/

/-- Worker of `splitChars`: `acc` holds, reversed, the characters read since the last
separator. -/
def splitLoop (sep : Char) : List Char → List Char → List (List Char)
  | acc, [] => [acc.reverse]
  | acc, c :: cs =>
    if c = sep then acc.reverse :: splitLoop sep [] cs
    else splitLoop sep (c :: acc) cs

/-- Cuts a character sequence at every occurrence of `sep`. -/
def splitChars (sep : Char) (s : List Char) : List (List Char) :=
  splitLoop sep [] s

/-- Go's `strings.Split(s, sep)` for a separator of one character: all substrings of `s`
between separators, empty ones included. -/
def stringsSplit (s : String) (sep : Char) : List String :=
  (splitChars sep s.data).map String.mk

/-- Go's `fmt.Sprintf("%v", l)` for a slice of strings: the items separated by one blank,
in square brackets. -/
def sprintfV (l : List String) : String :=
  "[" ++ " ".intercalate l ++ "]"

/-! ## Runs -/

/-- A run: the calls made, in order, and how the process ended. -/
structure Run (ε : Type) where
  trace : List ε
  status : Status
  deriving DecidableEq, Repr

namespace Run

variable {ε : Type}

/-- The run that makes no further call and ends with `s`. -/
def done (s : Status) : Run ε := ⟨[], s⟩

/-- Sequencing: the call `e`, then the rest of the run. -/
def call (e : ε) (rest : Run ε) : Run ε := ⟨e :: rest.trace, rest.status⟩

/-- The statement `if c { e }` followed by the rest of the run. -/
def callIf (c : Prop) [Decidable c] (e : ε) (rest : Run ε) : Run ε :=
  if c then call e rest else rest

/-- The statement `defer e` followed by `body`, the rest of the function: `e` runs last,
if the way the function ends runs deferred calls at all. -/
def defer (e : ε) (body : Run ε) : Run ε :=
  ⟨body.trace ++ (if body.status.runsDeferred then [e] else []), body.status⟩

/-- The statement `http.Handle(pattern, h)` or `http.HandleFunc(pattern, h)`, when the
patterns `mux` are registered with `http.DefaultServeMux`: `ServeMux.Handle` panics on an
empty pattern and on a pattern that is registered already; otherwise the registration `e`
takes place and the rest of the run finds `pattern` registered too. -/
def handle (mux : List String) (pattern : String) (e : ε) (rest : List String → Run ε) :
    Run ε :=
  if pattern = "" then done (.panicked "http: invalid pattern")
  else if pattern ∈ mux then done (.panicked ("http: multiple registrations for " ++ pattern))
  else call e (rest (mux ++ [pattern]))

end Run

/-! ## `main.go` -/

namespace PostgresExporter

open Run

/-- The name of the exporter (constant `exporterName`). -/
def exporterName : String := "postgres_exporter"

/-- The flag variables of `main.go` after `kingpin.Parse()`. -/
structure Flags where
  configFile : String
  metricsPath : String
  disableDefaultMetrics : Bool
  disableSettingsMetrics : Bool
  autoDiscoverDatabases : Bool
  queriesPath : String
  onlyDumpMaps : Bool
  constantLabelsList : String
  excludeDatabases : String
  includeDatabases : String
  deriving DecidableEq, Repr

/-- The functional options handed to `NewExporter`. -/
inductive ExporterOpt
  | DisableDefaultMetrics (b : Bool)
  | DisableSettingsMetrics (b : Bool)
  | AutoDiscoverDatabases (b : Bool)
  | WithUserQueriesPath (queryPath : String)
  | WithConstantLabels (s : String)
  | ExcludeDatabases (s : List String)
  | IncludeDatabases (s : String)
  deriving DecidableEq, Repr

/-- The value returned by `NewExporter(dsn, opts...)`, known by what it was built from. -/
structure Exporter where
  dsn : List String
  opts : List ExporterOpt
  deriving DecidableEq, Repr

/-- The value returned by `collector.NewPostgresCollector(logger, excludeDatabases, dsn,
filters)` when it returns no error, known by what it was built from. -/
structure PostgresCollector where
  excludeDatabases : List String
  dsn : String
  filters : List String
  deriving DecidableEq, Repr

/-- One entry of `web.LandingConfig.Links`. -/
structure LandingLinks where
  Address : String
  Text : String
  deriving DecidableEq, Repr

/-- The fields of `web.LandingConfig` that `main` fills in. -/
structure LandingConfig where
  Name : String
  Description : String
  Version : String
  Links : List LandingLinks
  deriving DecidableEq, Repr

/-- The handlers `main` registers with `net/http`. -/
inductive Handler
  /-- `promhttp.Handler()` -/
  | promhttp
  /-- the value returned by `web.NewLandingPage(landingConfig)` -/
  | landingPage (landingConfig : LandingConfig)
  /-- `handleProbe(rootFallbackLogger, excludedDatabases)` -/
  | handleProbe (excludedDatabases : List String)
  deriving DecidableEq, Repr

/-- Results of the calls whose outcome `main` looks at; an error of `none` is Go's `nil`. -/
structure Env where
  /-- error returned by `c.ReloadConfig` -/
  reloadConfig : Option String
  /-- the pair returned by `getDataSources()` -/
  getDataSources : List String × Option String
  /-- error returned by `collector.NewPostgresCollector` -/
  newPostgresCollector : Option String
  /-- string returned by `version.Info()` -/
  versionInfo : String
  /-- error returned by `web.NewLandingPage` -/
  newLandingPage : Option String
  /-- behaviour of `web.ListenAndServe` -/
  listenAndServe : ListenResult
  deriving DecidableEq, Repr

/-- The calls a run of `main` makes, with their arguments and, where `main` looks at it,
their result. -/
inductive Event
  | kingpinParse
  | dumpMaps
  | reloadConfig (configFile : String) (err : Option String)
  /-- a `Log` call on `rootFallbackLogger`, through `level.Warn`/`level.Error` or directly -/
  | log (lvl : Option Level) (keyvals : List String)
  | getDataSources (result : List String × Option String)
  | newExporter (dsn : List String) (opts : List ExporterOpt)
  /-- `exporter.servers.Close()` -/
  | serversClose (exporter : Exporter)
  /-- `prometheus.MustRegister(version.NewCollector(name))` -/
  | mustRegisterVersion (name : String)
  /-- `prometheus.MustRegister(exporter)`, on the default registry -/
  | mustRegisterExporter (exporter : Exporter)
  | newPostgresCollector (excludedDatabases : List String) (dsn : String)
      (filters : List String) (err : Option String)
  /-- `prometheus.MustRegister(pe)`, on the default registry -/
  | mustRegisterCollector (pe : PostgresCollector)
  /-- `http.Handle(pattern, h)` or `http.HandleFunc(pattern, h)` -/
  | httpHandle (pattern : String) (h : Handler)
  | newLandingPage (landingConfig : LandingConfig) (err : Option String)
  | listenAndServe (result : ListenResult)
  | osExit (code : Nat)
  deriving DecidableEq, Repr

/-- The function `main` of `main.go`. -/
def main (f : Flags) (env : Env) : Run Event :=
  call .kingpinParse <|
  if f.onlyDumpMaps then
    call .dumpMaps <|
    done .returned
  else
    call (.reloadConfig f.configFile env.reloadConfig) <|
    (fun rest => match env.reloadConfig with
      | some err => call (.log (some .warn) ["msg", "Error loading config", "err", err]) rest
      | none => rest) <|
    call (.getDataSources env.getDataSources) <|
    let dsns := env.getDataSources.1
    match env.getDataSources.2 with
    | some err =>
      call (.log (some .error) ["msg", "Failed reading data sources", "err", err]) <|
      call (.osExit 1) <|
      done (.exited 1)
    | none =>
      let excludedDatabases := stringsSplit f.excludeDatabases ','
      call (.log none ["msg", "Excluded databases",
                       "databases", sprintfV excludedDatabases]) <|
      callIf (f.queriesPath ≠ "")
        (.log (some .warn) ["msg", "The extended queries.yaml config is DEPRECATED",
                            "file", f.queriesPath]) <|
      callIf (f.autoDiscoverDatabases = true ∨ f.excludeDatabases ≠ ""
                ∨ f.includeDatabases ≠ "")
        (.log (some .warn)
          ["msg", "Scraping additional databases via auto discovery is DEPRECATED"]) <|
      callIf (f.constantLabelsList ≠ "")
        (.log (some .warn) ["msg", "Constant labels on all metrics is DEPRECATED"]) <|
      let opts : List ExporterOpt := [
        .DisableDefaultMetrics f.disableDefaultMetrics,
        .DisableSettingsMetrics f.disableSettingsMetrics,
        .AutoDiscoverDatabases f.autoDiscoverDatabases,
        .WithUserQueriesPath f.queriesPath,
        .WithConstantLabels f.constantLabelsList,
        .ExcludeDatabases excludedDatabases,
        .IncludeDatabases f.includeDatabases]
      call (.newExporter dsns opts) <|
      let exporter : Exporter := { dsn := dsns, opts := opts }
      defer (.serversClose exporter) <|
      call (.mustRegisterVersion exporterName) <|
      call (.mustRegisterExporter exporter) <|
      -- `dsn := ""; if len(dsns) > 0 { dsn = dsns[0] }`; `none` is an index out of range
      match (if dsns.length > 0 then dsns[0]? else some "") with
      | none => done (.panicked "runtime error: index out of range [0] with length 0")
      | some dsn =>
        call (.newPostgresCollector excludedDatabases dsn [] env.newPostgresCollector) <|
        (fun rest => match env.newPostgresCollector with
          | some err =>
            call (.log (some .warn)
                    ["msg", "Failed to create PostgresCollector", "err", err]) rest
          | none =>
            call (.mustRegisterCollector
              { excludeDatabases := excludedDatabases, dsn := dsn, filters := [] }) rest) <|
        handle [] f.metricsPath (.httpHandle f.metricsPath .promhttp) fun mux =>
        (fun (rest : List String → Run Event) =>
          if f.metricsPath ≠ "/" ∧ f.metricsPath ≠ "" then
            let landingConfig : LandingConfig := {
              Name := "Postgres Exporter",
              Description := "Prometheus PostgreSQL server Exporter",
              Version := env.versionInfo,
              Links := [{ Address := f.metricsPath, Text := "Metrics" }] }
            call (.newLandingPage landingConfig env.newLandingPage) <|
            match env.newLandingPage with
            | some err =>
              call (.log (some .error) ["err", err]) <|
              call (.osExit 1) <|
              done (.exited 1)
            | none =>
              handle mux "/" (.httpHandle "/" (.landingPage landingConfig)) rest
          else rest mux) fun mux =>
        handle mux "/probe" (.httpHandle "/probe" (.handleProbe excludedDatabases)) fun _ =>
        call (.listenAndServe env.listenAndServe) <|
        match env.listenAndServe with
        | .blocks => done .serving
        | .returns (some err) =>
          call (.log (some .error) ["msg", "Error running HTTP server", "err", err]) <|
          call (.osExit 1) <|
          done (.exited 1)
        | .returns none => done .returned

end PostgresExporter

/-! ## `postgres_exporter.go` -/

namespace Legacy

open Run

/-- The flag variables of `postgres_exporter.go` after `kingpin.Parse()`. -/
structure Flags where
  listenAddress : String
  metricPath : String
  disableDefaultMetrics : Bool
  disableSettingsMetrics : Bool
  autoDiscoverDatabases : Bool
  queriesPath : String
  onlyDumpMaps : Bool
  constantLabelsList : String
  excludeDatabases : String
  deriving DecidableEq, Repr

/-- The functional options handed to `exporter.NewExporter`. -/
inductive ExporterOpt
  | DisableDefaultMetrics (b : Bool)
  | DisableSettingsMetrics (b : Bool)
  | AutoDiscoverDatabases (b : Bool)
  | WithUserQueriesPath (queryPath : String)
  | WithConstantLabels (s : String)
  | ExcludeDatabases (s : String)
  deriving DecidableEq, Repr

/-- The value returned by `exporter.NewExporter(dsn, opts...)`, known by what it was built
from. -/
structure Exporter where
  dsn : List String
  opts : List ExporterOpt
  deriving DecidableEq, Repr

/-- The handlers `main` registers with `net/http`. -/
inductive Handler
  /-- `promhttp.Handler()` -/
  | promhttp
  /-- the function literal that writes the bytes of `landingPage` -/
  | writeLandingPage (landingPage : String)
  deriving DecidableEq, Repr

/-- Results of the calls whose outcome `main` looks at. -/
structure Env where
  /-- the slice returned by `exporter.GetDataSources()` -/
  getDataSources : List String
  /-- behaviour of `http.ListenAndServe` -/
  listenAndServe : ListenResult
  deriving DecidableEq, Repr

/-- The calls a run of `main` makes. -/
inductive Event
  | kingpinParse
  | dumpMaps
  | getDataSources (result : List String)
  /-- `log.Fatal(args)`: logs, then `os.Exit(1)` -/
  | logFatal (args : Option String)
  | newExporter (dsn : List String) (opts : List ExporterOpt)
  /-- `e.Close()` -/
  | close (e : Exporter)
  /-- `prometheus.MustRegister(version.NewCollector(name))` -/
  | mustRegisterVersion (name : String)
  /-- `prometheus.MustRegister(e)` -/
  | mustRegisterExporter (e : Exporter)
  /-- `http.Handle(pattern, h)` or `http.HandleFunc(pattern, h)` -/
  | httpHandle (pattern : String) (h : Handler)
  | logInfof (msg : String)
  | listenAndServe (addr : String) (result : ListenResult)
  deriving DecidableEq, Repr

/-- The HTML served at `/`: the raw string literal of `main` around `*metricPath`. -/
def landingPage (metricPath : String) : String :=
  "<html>\n\t<head><title>Postgres exporter</title></head>\n\t<body>\n\t<h1>Postgres exporter</h1>\n\t<p><a href='"
    ++ metricPath ++ "'>Metrics</a></p>\n\t</body>\n\t</html>\n\t"

/-- The function `main` of `postgres_exporter.go`. -/
def main (f : Flags) (env : Env) : Run Event :=
  call .kingpinParse <|
  let landingPage := landingPage f.metricPath
  if f.onlyDumpMaps then
    call .dumpMaps <|
    done .returned
  else
    let dsn := env.getDataSources
    call (.getDataSources dsn) <|
    if dsn.length = 0 then
      call (.logFatal
        (some "couldn't find environment variables describing the datasource to use")) <|
      done (.exited 1)
    else
      let opts : List ExporterOpt := [
        .DisableDefaultMetrics f.disableDefaultMetrics,
        .DisableSettingsMetrics f.disableSettingsMetrics,
        .AutoDiscoverDatabases f.autoDiscoverDatabases,
        .WithUserQueriesPath f.queriesPath,
        .WithConstantLabels f.constantLabelsList,
        .ExcludeDatabases f.excludeDatabases]
      call (.newExporter dsn opts) <|
      let e : Exporter := { dsn := dsn, opts := opts }
      defer (.close e) <|
      call (.mustRegisterVersion "postgres_exporter") <|
      call (.mustRegisterExporter e) <|
      handle [] f.metricPath (.httpHandle f.metricPath .promhttp) fun mux =>
      handle mux "/" (.httpHandle "/" (.writeLandingPage landingPage)) fun _ =>
      call (.logInfof ("Starting Server: " ++ f.listenAddress)) <|
      call (.listenAndServe f.listenAddress env.listenAndServe) <|
      match env.listenAndServe with
      | .blocks => done .serving
      | .returns err =>
        call (.logFatal err) <|
        done (.exited 1)

end Legacy


/-! ## Parts of the runs of `main.go` -/

namespace PostgresExporter

/-- The flag values when no flag and no environment variable is given (the `Default`s of
the flag declarations; `dumpmaps` has none and is false). -/
def defaultFlags : Flags := {
  configFile := "postgres_exporter.yml",
  metricsPath := "/metrics",
  disableDefaultMetrics := false,
  disableSettingsMetrics := false,
  autoDiscoverDatabases := false,
  queriesPath := "",
  onlyDumpMaps := false,
  constantLabelsList := "",
  excludeDatabases := "",
  includeDatabases := "" }

/-- An environment in which `getDataSources` returns `dsns`, no call returns an error and
the listener returns `nil` (a graceful shutdown). -/
def quietEnv (dsns : List String) : Env := {
  reloadConfig := none,
  getDataSources := (dsns, none),
  newPostgresCollector := none,
  versionInfo := "(version=, branch=, revision=)",
  newLandingPage := none,
  listenAndServe := .returns none }

/-- The calls by which `main` constructs the exporter or a collector, registers a collector
or a handler, builds the landing page or opens the listener. -/
def Event.startsService : Event → Bool
  | .newExporter _ _ => true
  | .mustRegisterVersion _ => true
  | .mustRegisterExporter _ => true
  | .newPostgresCollector _ _ _ _ => true
  | .mustRegisterCollector _ => true
  | .httpHandle _ _ => true
  | .newLandingPage _ _ => true
  | .listenAndServe _ => true
  | _ => false

/-- The calls of `exporter.servers.Close()`. -/
def Event.isClose : Event → Bool
  | .serversClose _ => true
  | _ => false

/-- The slice `excludedDatabases` of `main`. -/
def excludedDatabasesOf (f : Flags) : List String :=
  stringsSplit f.excludeDatabases ','

/-- The slice `opts` of `main`. -/
def optsOf (f : Flags) : List ExporterOpt := [
  .DisableDefaultMetrics f.disableDefaultMetrics,
  .DisableSettingsMetrics f.disableSettingsMetrics,
  .AutoDiscoverDatabases f.autoDiscoverDatabases,
  .WithUserQueriesPath f.queriesPath,
  .WithConstantLabels f.constantLabelsList,
  .ExcludeDatabases (excludedDatabasesOf f),
  .IncludeDatabases f.includeDatabases]

/-- The value `exporter` of `main`. -/
def exporterOf (f : Flags) (env : Env) : Exporter := {
  dsn := env.getDataSources.1,
  opts := optsOf f }

/-- The value `pe` of `main`. -/
def collectorOf (f : Flags) (env : Env) : PostgresCollector := {
  excludeDatabases := excludedDatabasesOf f,
  dsn := env.getDataSources.1.headD "",
  filters := [] }

/-- The value `landingConfig` of `main`. -/
def landingConfigOf (f : Flags) (env : Env) : LandingConfig := {
  Name := "Postgres Exporter",
  Description := "Prometheus PostgreSQL server Exporter",
  Version := env.versionInfo,
  Links := [{ Address := f.metricsPath, Text := "Metrics" }] }

/-- The warning for a failed config load. -/
def configWarning (err : String) : Event :=
  .log (some .warn) ["msg", "Error loading config", "err", err]

/-- The deprecation warning for the extended queries file. -/
def queriesWarning (f : Flags) : Event :=
  .log (some .warn) ["msg", "The extended queries.yaml config is DEPRECATED",
                     "file", f.queriesPath]

/-- The deprecation warning for auto discovery. -/
def discoveryWarning : Event :=
  .log (some .warn) ["msg", "Scraping additional databases via auto discovery is DEPRECATED"]

/-- The deprecation warning for constant labels. -/
def labelsWarning : Event :=
  .log (some .warn) ["msg", "Constant labels on all metrics is DEPRECATED"]

/-- Calls of a run up to and including `getDataSources()`. -/
def resolveEvents (f : Flags) (env : Env) : List Event :=
  [.kingpinParse, .reloadConfig f.configFile env.reloadConfig]
    ++ (match env.reloadConfig with
        | some err => [configWarning err]
        | none => [])
    ++ [.getDataSources env.getDataSources]

/-- The deprecation warnings of a run, in order. -/
def deprecationEvents (f : Flags) : List Event :=
  (if f.queriesPath ≠ "" then [queriesWarning f] else [])
    ++ (if f.autoDiscoverDatabases = true ∨ f.excludeDatabases ≠ "" ∨ f.includeDatabases ≠ ""
        then [discoveryWarning] else [])
    ++ (if f.constantLabelsList ≠ "" then [labelsWarning] else [])

/-- Calls from `NewExporter` to the registration of the PostgresCollector. -/
def registrationEvents (f : Flags) (env : Env) : List Event :=
  [.newExporter env.getDataSources.1 (optsOf f),
   .mustRegisterVersion exporterName,
   .mustRegisterExporter (exporterOf f env),
   .newPostgresCollector (excludedDatabasesOf f) (env.getDataSources.1.headD "") []
      env.newPostgresCollector,
   (match env.newPostgresCollector with
    | some err => .log (some .warn) ["msg", "Failed to create PostgresCollector", "err", err]
    | none => .mustRegisterCollector (collectorOf f env))]

/-- Calls from the registration of the probe handler on, the deferred call included, and
the way the run ends. -/
def serveRun (f : Flags) (env : Env) : Run Event :=
  if f.metricsPath = "/probe" then
    ⟨[.serversClose (exporterOf f env)],
     .panicked ("http: multiple registrations for " ++ "/probe")⟩
  else
    match env.listenAndServe with
    | .blocks =>
      ⟨[.httpHandle "/probe" (.handleProbe (excludedDatabasesOf f)),
        .listenAndServe env.listenAndServe], .serving⟩
    | .returns (some err) =>
      ⟨[.httpHandle "/probe" (.handleProbe (excludedDatabasesOf f)),
        .listenAndServe env.listenAndServe,
        .log (some .error) ["msg", "Error running HTTP server", "err", err], .osExit 1],
       .exited 1⟩
    | .returns none =>
      ⟨[.httpHandle "/probe" (.handleProbe (excludedDatabasesOf f)),
        .listenAndServe env.listenAndServe, .serversClose (exporterOf f env)], .returned⟩

/-- Calls after the registration of the metrics handler, the deferred call included, and
the way the run ends. -/
def landingRun (f : Flags) (env : Env) : Run Event :=
  if f.metricsPath ≠ "/" ∧ f.metricsPath ≠ "" then
    match env.newLandingPage with
    | some err =>
      ⟨[.newLandingPage (landingConfigOf f env) (some err),
        .log (some .error) ["err", err], .osExit 1], .exited 1⟩
    | none =>
      ⟨[.newLandingPage (landingConfigOf f env) none,
        .httpHandle "/" (.landingPage (landingConfigOf f env))] ++ (serveRun f env).trace,
       (serveRun f env).status⟩
  else serveRun f env

/-- Calls from the registration of the metrics handler on, the deferred call included, and
the way the run ends. -/
def httpRun (f : Flags) (env : Env) : Run Event :=
  if f.metricsPath = "" then
    ⟨[.serversClose (exporterOf f env)], .panicked "http: invalid pattern"⟩
  else
    ⟨.httpHandle f.metricsPath .promhttp :: (landingRun f env).trace,
     (landingRun f env).status⟩

/-- The PostgresCollectors a sequence of calls registers on the default registry. -/
def registeredCollectors (t : List Event) : List PostgresCollector :=
  t.filterMap fun e =>
    match e with
    | .mustRegisterCollector pe => some pe
    | _ => none

/-- The exporters a sequence of calls registers on the default registry. -/
def registeredExporters (t : List Event) : List Exporter :=
  t.filterMap fun e =>
    match e with
    | .mustRegisterExporter exporter => some exporter
    | _ => none

/-- The landing-page handlers a sequence of calls registers: pattern and page config. -/
def landingHandlers (t : List Event) : List (String × LandingConfig) :=
  t.filterMap fun e =>
    match e with
    | .httpHandle pattern (.landingPage landingConfig) => some (pattern, landingConfig)
    | _ => none

/-- The `web.NewLandingPage` calls in a sequence of calls: config and returned error. -/
def landingPageCalls (t : List Event) : List (LandingConfig × Option String) :=
  t.filterMap fun e =>
    match e with
    | .newLandingPage landingConfig err => some (landingConfig, err)
    | _ => none

/-- The `collector.NewPostgresCollector` calls in a sequence of calls: excluded databases,
DSN, filters and returned error. -/
def collectorCalls (t : List Event) :
    List (List String × String × List String × Option String) :=
  t.filterMap fun e =>
    match e with
    | .newPostgresCollector excludedDatabases dsn filters err =>
      some (excludedDatabases, dsn, filters, err)
    | _ => none

/-- The excluded-database lists a sequence of calls hands over, in order: the argument of
each `ExcludeDatabases` option of a `NewExporter` call, the first argument of each
`collector.NewPostgresCollector` call, the argument of each `handleProbe` registered. -/
def excludedLists (t : List Event) : List (List String) :=
  t.flatMap fun e =>
    match e with
    | .newExporter _ opts =>
      opts.filterMap fun o =>
        match o with
        | .ExcludeDatabases s => some s
        | _ => none
    | .newPostgresCollector excludedDatabases _ _ _ => [excludedDatabases]
    | .httpHandle _ (.handleProbe excludedDatabases) => [excludedDatabases]
    | _ => []

end PostgresExporter

/-! ## Parts of the runs of `postgres_exporter.go` -/

namespace Legacy

/-- The flag values when no flag and no environment variable is given. -/
def defaultFlags : Flags := {
  listenAddress := ":9187",
  metricPath := "/metrics",
  disableDefaultMetrics := false,
  disableSettingsMetrics := false,
  autoDiscoverDatabases := false,
  queriesPath := "",
  onlyDumpMaps := false,
  constantLabelsList := "",
  excludeDatabases := "" }

/-- The calls by which `main` constructs the exporter, registers a collector or a handler
or opens the listener. -/
def Event.startsService : Event → Bool
  | .newExporter _ _ => true
  | .mustRegisterVersion _ => true
  | .mustRegisterExporter _ => true
  | .httpHandle _ _ => true
  | .listenAndServe _ _ => true
  | _ => false

/-- The calls of `e.Close()`. -/
def Event.isClose : Event → Bool
  | .close _ => true
  | _ => false

/-- The slice of options `main` hands to `exporter.NewExporter`. -/
def optsOf (f : Flags) : List ExporterOpt := [
  .DisableDefaultMetrics f.disableDefaultMetrics,
  .DisableSettingsMetrics f.disableSettingsMetrics,
  .AutoDiscoverDatabases f.autoDiscoverDatabases,
  .WithUserQueriesPath f.queriesPath,
  .WithConstantLabels f.constantLabelsList,
  .ExcludeDatabases f.excludeDatabases]

/-- The value `e` of `main`. -/
def exporterOf (f : Flags) (env : Env) : Exporter := {
  dsn := env.getDataSources,
  opts := optsOf f }

/-- Calls from the registration of the metrics handler on, the deferred call included, and
the way the run ends. -/
def httpRun (f : Flags) (env : Env) : Run Event :=
  if f.metricPath = "" then
    ⟨[.close (exporterOf f env)], .panicked "http: invalid pattern"⟩
  else if f.metricPath = "/" then
    ⟨[.httpHandle "/" .promhttp, .close (exporterOf f env)],
     .panicked ("http: multiple registrations for " ++ "/")⟩
  else
    match env.listenAndServe with
    | .blocks =>
      ⟨[.httpHandle f.metricPath .promhttp,
        .httpHandle "/" (.writeLandingPage (landingPage f.metricPath)),
        .logInfof ("Starting Server: " ++ f.listenAddress),
        .listenAndServe f.listenAddress env.listenAndServe], .serving⟩
    | .returns err =>
      ⟨[.httpHandle f.metricPath .promhttp,
        .httpHandle "/" (.writeLandingPage (landingPage f.metricPath)),
        .logInfof ("Starting Server: " ++ f.listenAddress),
        .listenAndServe f.listenAddress env.listenAndServe,
        .logFatal err], .exited 1⟩

/-- The handlers a sequence of calls registers: pattern and handler. -/
def handlers (t : List Event) : List (String × Handler) :=
  t.filterMap fun e =>
    match e with
    | .httpHandle pattern h => some (pattern, h)
    | _ => none

end Legacy

/-! ## Calculating with runs -/

namespace Run

variable {ε : Type}

@[simp] theorem done_trace (s : Status) : (done s : Run ε).trace = [] := rfl

@[simp] theorem done_status (s : Status) : (done s : Run ε).status = s := rfl

@[simp] theorem call_trace (e : ε) (rest : Run ε) : (call e rest).trace = e :: rest.trace := rfl

@[simp] theorem call_status (e : ε) (rest : Run ε) : (call e rest).status = rest.status := rfl

@[simp] theorem callIf_trace (c : Prop) [Decidable c] (e : ε) (rest : Run ε) :
    (callIf c e rest).trace = (if c then [e] else []) ++ rest.trace := by
  unfold callIf
  split <;> simp

@[simp] theorem callIf_status (c : Prop) [Decidable c] (e : ε) (rest : Run ε) :
    (callIf c e rest).status = rest.status := by
  unfold callIf
  split <;> simp

@[simp] theorem defer_status (e : ε) (body : Run ε) : (defer e body).status = body.status :=
  rfl

theorem defer_trace (e : ε) (body : Run ε) :
    (defer e body).trace =
      body.trace ++ (if body.status.runsDeferred then [e] else []) := rfl

/-- Two runs are equal when their traces and their statuses are. -/
theorem ext_iff (r r' : Run ε) : r = r' ↔ r.trace = r'.trace ∧ r.status = r'.status := by
  cases r; cases r'; simp

end Run

namespace PostgresExporter

/-- Go's guarded `dsns[0]` never leaves the slice. -/
theorem first_dsn (dsns : List String) :
    (if dsns.length > 0 then dsns[0]? else some "") = some (dsns.headD "") := by
  cases dsns <;> simp

/-- Shape of a run in dump mode. -/
theorem main_dump (f : Flags) (env : Env) (hd : f.onlyDumpMaps = true) :
    main f env = ⟨[.kingpinParse, .dumpMaps], .returned⟩ := by
  simp [main, hd, Run.call, Run.done]

/-- Shape of a run in which `getDataSources` returns an error. -/
theorem main_unresolved (f : Flags) (env : Env) (err : String)
    (hd : f.onlyDumpMaps = false) (he : env.getDataSources.2 = some err) :
    main f env = ⟨resolveEvents f env ++
      [.log (some .error) ["msg", "Failed reading data sources", "err", err], .osExit 1],
      .exited 1⟩ := by
  rcases env with ⟨rc, ⟨dsns, dserr⟩, npc, vi, nlp, ls⟩
  simp only at he
  subst he
  cases rc <;> simp [main, hd, resolveEvents, configWarning, Run.ext_iff]

/-- Shape of a run in which `getDataSources` returns no error. -/
theorem main_resolved (f : Flags) (env : Env)
    (hd : f.onlyDumpMaps = false) (he : env.getDataSources.2 = none) :
    main f env = ⟨resolveEvents f env ++
      [.log none ["msg", "Excluded databases", "databases", sprintfV (excludedDatabasesOf f)]]
      ++ deprecationEvents f ++ registrationEvents f env ++ (httpRun f env).trace,
      (httpRun f env).status⟩ := by
  rcases env with ⟨rc, ⟨dsns, dserr⟩, npc, vi, nlp, ls⟩
  simp only at he
  subst he
  by_cases h0 : f.metricsPath = ""
  · cases rc <;> cases npc <;>
    simp [main, hd, first_dsn, httpRun, h0, Run.handle, Run.ext_iff, Run.defer_trace, Status.runsDeferred,
      resolveEvents, deprecationEvents, registrationEvents, excludedDatabasesOf, optsOf,
      exporterOf, collectorOf, configWarning, queriesWarning, discoveryWarning,
      labelsWarning]
  · have h0' : ¬ "" = f.metricsPath := fun h => h0 h.symm
    by_cases hs : f.metricsPath = "/"
    · cases nlp <;> rcases ls with _ | _ | _ <;> cases rc <;> cases npc <;>
      simp [main, hd, first_dsn, httpRun, landingRun, serveRun, hs, Run.handle,
        Run.ext_iff, Run.defer_trace, Status.runsDeferred, resolveEvents, deprecationEvents,
        registrationEvents, excludedDatabasesOf, optsOf, exporterOf, collectorOf,
        landingConfigOf, configWarning, queriesWarning, discoveryWarning, labelsWarning]
    · have hs' : ¬ "/" = f.metricsPath := fun h => hs h.symm
      by_cases hp : f.metricsPath = "/probe"
      · cases nlp <;> rcases ls with _ | _ | _ <;> cases rc <;> cases npc <;>
        simp [main, hd, first_dsn, httpRun, landingRun, serveRun, hp, Run.handle,
          Run.ext_iff, Run.defer_trace, Status.runsDeferred, resolveEvents,
          deprecationEvents, registrationEvents, excludedDatabasesOf, optsOf, exporterOf,
          collectorOf, landingConfigOf, configWarning, queriesWarning, discoveryWarning,
          labelsWarning]
      · have hp' : ¬ "/probe" = f.metricsPath := fun h => hp h.symm
        cases nlp <;> rcases ls with _ | _ | _ <;> cases rc <;> cases npc <;>
        simp [main, hd, first_dsn, httpRun, landingRun, serveRun, h0, hs, hp, h0', hs', hp',
          Run.handle, Run.ext_iff, Run.defer_trace, Status.runsDeferred, resolveEvents,
          deprecationEvents, registrationEvents, excludedDatabasesOf, optsOf, exporterOf,
          collectorOf, landingConfigOf, configWarning, queriesWarning, discoveryWarning,
          labelsWarning]

/-- The way a run of `main` ends, read off the flags and the environment. -/
theorem main_status (f : Flags) (env : Env) :
    (main f env).status =
      if f.onlyDumpMaps = true then .returned
      else if env.getDataSources.2 ≠ none then .exited 1
      else if f.metricsPath = "" then .panicked "http: invalid pattern"
      else if f.metricsPath ≠ "/" ∧ env.newLandingPage ≠ none then .exited 1
      else if f.metricsPath = "/probe"
        then .panicked ("http: multiple registrations for " ++ "/probe")
      else match env.listenAndServe with
        | .blocks => .serving
        | .returns (some _) => .exited 1
        | .returns none => .returned := by
  cases hd : f.onlyDumpMaps
  · cases he : env.getDataSources.2 with
    | some err => simp [main_unresolved f env err hd he]
    | none =>
      rw [main_resolved f env hd he]
      rcases env with ⟨rc, ds, npc, vi, nlp, ls⟩
      by_cases h0 : f.metricsPath = ""
      · simp [httpRun, h0]
      · by_cases hs : f.metricsPath = "/"
        · cases nlp <;> rcases ls with _ | _ | _ <;>
          simp [httpRun, landingRun, serveRun, hs]
        · by_cases hp : f.metricsPath = "/probe"
          · cases nlp <;> rcases ls with _ | _ | _ <;>
            simp [httpRun, landingRun, serveRun, hp]
          · cases nlp <;> rcases ls with _ | _ | _ <;>
            simp [httpRun, landingRun, serveRun, h0, hs, hp]
  · simp [main_dump f env hd]

end PostgresExporter

namespace Legacy

/-- Shape of a run in dump mode. -/
theorem legacy_dump (f : Flags) (env : Env) (hd : f.onlyDumpMaps = true) :
    main f env = ⟨[.kingpinParse, .dumpMaps], .returned⟩ := by
  simp [main, hd, Run.call, Run.done]

/-- Shape of a run in which `GetDataSources` returns an empty slice. -/
theorem legacy_empty (f : Flags) (env : Env)
    (hd : f.onlyDumpMaps = false) (he : env.getDataSources = []) :
    main f env = ⟨[.kingpinParse, .getDataSources [], .logFatal
      (some "couldn't find environment variables describing the datasource to use")],
      .exited 1⟩ := by
  simp [main, hd, he, Run.call, Run.done]

/-- Shape of a run in which `GetDataSources` returns at least one data source. -/
theorem legacy_nonempty (f : Flags) (env : Env)
    (hd : f.onlyDumpMaps = false) (he : env.getDataSources ≠ []) :
    main f env = ⟨[.kingpinParse, .getDataSources env.getDataSources,
        .newExporter env.getDataSources (optsOf f),
        .mustRegisterVersion "postgres_exporter",
        .mustRegisterExporter (exporterOf f env)] ++ (httpRun f env).trace,
      (httpRun f env).status⟩ := by
  rcases env with ⟨dsn, ls⟩
  simp only at he
  by_cases h0 : f.metricPath = ""
  · simp [main, hd, he, optsOf, exporterOf, httpRun, h0, Run.handle, Run.ext_iff,
      Run.defer_trace, Status.runsDeferred]
  · by_cases hs : f.metricPath = "/"
    · simp [main, hd, he, optsOf, exporterOf, httpRun, hs, Run.handle, Run.ext_iff,
        Run.defer_trace, Status.runsDeferred]
    · have hs' : ¬ "/" = f.metricPath := fun h => hs h.symm
      cases ls <;>
      simp [main, hd, he, optsOf, exporterOf, httpRun, h0, hs, hs', Run.handle,
        Run.ext_iff, Run.defer_trace, Status.runsDeferred]

end Legacy
/-! ## Dump mode -/

/-- C1. Dump-and-exit, both entrypoints: with the dumpmaps flag set, whatever the other
flags and whatever the environment, the run is exactly flag parsing followed by the map
dump, and `main` returns (exit code 0).  So the run has no config reload, no data-source
resolution, no exporter or collector construction, no handler registration and no
listener. -/
theorem dump_and_exit (f : PostgresExporter.Flags) (env : PostgresExporter.Env)
    (g : Legacy.Flags) (genv : Legacy.Env)
    (hf : f.onlyDumpMaps = true) (hg : g.onlyDumpMaps = true) :
    (PostgresExporter.main f env).trace = [.kingpinParse, .dumpMaps] ∧
    (PostgresExporter.main f env).status = .returned ∧
    (PostgresExporter.main f env).status.exitCode = some 0 ∧
    (Legacy.main g genv).trace = [.kingpinParse, .dumpMaps] ∧
    (Legacy.main g genv).status = .returned ∧
    (Legacy.main g genv).status.exitCode = some 0 := by
  rw [PostgresExporter.main_dump f env hf, Legacy.legacy_dump g genv hg]
  simp [Status.exitCode]

/-- C1 at concrete flags: dump mode in front of an environment in which every call would
fail. -/
theorem dump_and_exit_witness :
    (PostgresExporter.main { PostgresExporter.defaultFlags with onlyDumpMaps := true }
        ⟨some "no such file", ([], some "no dsn"), some "down", "", some "template",
          .returns (some "bind")⟩).trace = [.kingpinParse, .dumpMaps] ∧
    (Legacy.main { Legacy.defaultFlags with onlyDumpMaps := true }
        ⟨[], .returns (some "bind")⟩).trace = [.kingpinParse, .dumpMaps] :=
  ⟨(dump_and_exit { PostgresExporter.defaultFlags with onlyDumpMaps := true }
      ⟨some "no such file", ([], some "no dsn"), some "down", "", some "template",
        .returns (some "bind")⟩
      { Legacy.defaultFlags with onlyDumpMaps := true } ⟨[], .returns (some "bind")⟩
      rfl rfl).1,
   (dump_and_exit { PostgresExporter.defaultFlags with onlyDumpMaps := true }
      ⟨some "no such file", ([], some "no dsn"), some "down", "", some "template",
        .returns (some "bind")⟩
      { Legacy.defaultFlags with onlyDumpMaps := true } ⟨[], .returns (some "bind")⟩
      rfl rfl).2.2.2.1⟩

/-! ## Exit codes -/

/-- C2. Exit codes of `main` in `main.go`, for every flag setting and every outcome of the
external calls: the exit code is 1 exactly when the run contains a `getDataSources` call
that returned an error, or a `web.NewLandingPage` call that returned an error, or a
`web.ListenAndServe` call that returned an error; every other terminating run that does
not panic is a normal return of `main`, exit code 0.  The outcomes of the config load and
of `collector.NewPostgresCollector` have no influence on how the run ends.  The runs that
panic are those that resolved their data sources and register the empty pattern or
register `/probe` twice. -/
theorem exit_codes (f : PostgresExporter.Flags) (env : PostgresExporter.Env) :
    ((PostgresExporter.main f env).status.exitCode = some 1 ↔
      ((∃ dsns err, PostgresExporter.Event.getDataSources (dsns, some err)
          ∈ (PostgresExporter.main f env).trace) ∨
       (∃ landingConfig err, PostgresExporter.Event.newLandingPage landingConfig (some err)
          ∈ (PostgresExporter.main f env).trace) ∨
       (∃ err, PostgresExporter.Event.listenAndServe (.returns (some err))
          ∈ (PostgresExporter.main f env).trace))) ∧
    (∀ code, (PostgresExporter.main f env).status.exitCode = some code → code ≠ 1 →
      (∀ msg, (PostgresExporter.main f env).status ≠ .panicked msg) →
      code = 0 ∧ (PostgresExporter.main f env).status = .returned) ∧
    (∀ reloadErr collectorErr,
      (PostgresExporter.main f
        { env with reloadConfig := reloadErr, newPostgresCollector := collectorErr }).status
        = (PostgresExporter.main f env).status) ∧
    ((∃ msg, (PostgresExporter.main f env).status = .panicked msg) ↔
      f.onlyDumpMaps = false ∧ env.getDataSources.2 = none ∧
        (f.metricsPath = "" ∨ (f.metricsPath = "/probe" ∧ env.newLandingPage = none))) := by
  refine ⟨?_, ?_, ?_, ?_⟩
  · cases hd : f.onlyDumpMaps
    · cases he : env.getDataSources.2 with
      | some err =>
        rw [PostgresExporter.main_unresolved f env err hd he]
        simp only [Status.exitCode, true_iff]
        refine Or.inl ⟨env.getDataSources.1, err, ?_⟩
        have : env.getDataSources = (env.getDataSources.1, some err) := by
          rw [← he]
        rw [← this]
        simp [PostgresExporter.resolveEvents]
      | none =>
        rw [PostgresExporter.main_resolved f env hd he]
        rcases env with ⟨rc, ⟨dsns, dserr⟩, npc, vi, nlp, ls⟩
        simp only at he
        subst he
        by_cases h0 : f.metricsPath = ""
        · cases rc <;> cases npc <;>
          simp [PostgresExporter.httpRun, h0, Status.exitCode,
            PostgresExporter.resolveEvents, PostgresExporter.deprecationEvents,
            PostgresExporter.registrationEvents, PostgresExporter.configWarning,
            PostgresExporter.queriesWarning, PostgresExporter.discoveryWarning,
            PostgresExporter.labelsWarning]
        · by_cases hs : f.metricsPath = "/"
          · cases nlp <;> rcases ls with _ | _ | _ <;> cases rc <;> cases npc <;>
            simp [PostgresExporter.httpRun, PostgresExporter.landingRun,
              PostgresExporter.serveRun, hs, Status.exitCode,
              PostgresExporter.resolveEvents, PostgresExporter.deprecationEvents,
              PostgresExporter.registrationEvents, PostgresExporter.configWarning,
              PostgresExporter.queriesWarning, PostgresExporter.discoveryWarning,
              PostgresExporter.labelsWarning]
          · by_cases hp : f.metricsPath = "/probe"
            · cases nlp <;> rcases ls with _ | _ | _ <;> cases rc <;> cases npc <;>
              simp [PostgresExporter.httpRun, PostgresExporter.landingRun,
                PostgresExporter.serveRun, hp, Status.exitCode,
                PostgresExporter.resolveEvents, PostgresExporter.deprecationEvents,
                PostgresExporter.registrationEvents, PostgresExporter.configWarning,
                PostgresExporter.queriesWarning, PostgresExporter.discoveryWarning,
                PostgresExporter.labelsWarning]
            · cases nlp <;> rcases ls with _ | _ | _ <;> cases rc <;> cases npc <;>
              simp [PostgresExporter.httpRun, PostgresExporter.landingRun,
                PostgresExporter.serveRun, h0, hs, hp, Status.exitCode,
                PostgresExporter.resolveEvents, PostgresExporter.deprecationEvents,
                PostgresExporter.registrationEvents, PostgresExporter.configWarning,
                PostgresExporter.queriesWarning, PostgresExporter.discoveryWarning,
                PostgresExporter.labelsWarning]
    · simp [PostgresExporter.main_dump f env hd, Status.exitCode]
  · intro code
    rw [PostgresExporter.main_status]
    rcases env.listenAndServe with _ | _ | _ <;> split_ifs <;> simp [Status.exitCode] <;> omega
  · intro reloadErr collectorErr
    simp only [PostgresExporter.main_status]
  · rw [PostgresExporter.main_status]
    by_cases h1 : f.onlyDumpMaps = true
    · rw [if_pos h1]
      simp [h1]
    · rw [if_neg h1]
      have hd : f.onlyDumpMaps = false := by simpa using h1
      by_cases h2 : env.getDataSources.2 ≠ none
      · rw [if_pos h2]
        simp [h2]
      · rw [if_neg h2]
        have he : env.getDataSources.2 = none := by simpa using h2
        by_cases h3 : f.metricsPath = ""
        · rw [if_pos h3]
          simp [hd, he, h3]
        · rw [if_neg h3]
          by_cases h4 : f.metricsPath ≠ "/" ∧ env.newLandingPage ≠ none
          · rw [if_pos h4]
            simp [h3, h4.2]
          · rw [if_neg h4]
            by_cases h5 : f.metricsPath = "/probe"
            · rw [if_pos h5]
              have hn : env.newLandingPage = none := by
                by_contra hn
                exact h4 ⟨by rw [h5]; decide, hn⟩
              simp [hd, he, h5, hn]
            · rw [if_neg h5]
              rcases env.listenAndServe with _ | _ | _ <;> simp [h3, h5]

/-- C2 at a concrete input: every call succeeds except the listener, which cannot bind. -/
theorem exit_codes_witness :
    (PostgresExporter.main PostgresExporter.defaultFlags
        { PostgresExporter.quietEnv ["postgresql://db"] with
          listenAndServe := .returns (some "bind: address already in use") }).status.exitCode
      = some 1 :=
  (exit_codes PostgresExporter.defaultFlags
      { PostgresExporter.quietEnv ["postgresql://db"] with
        listenAndServe := .returns (some "bind: address already in use") }).1.mpr
    (Or.inr (Or.inr ⟨"bind: address already in use", by
      rw [PostgresExporter.main_resolved _ _ rfl rfl]
      simp [PostgresExporter.httpRun, PostgresExporter.landingRun, PostgresExporter.serveRun,
        PostgresExporter.defaultFlags, PostgresExporter.quietEnv]⟩))
/-! ## Configuration load -/

namespace PostgresExporter

/-- No call made after `getDataSources()` has returned is the config-load warning. -/
theorem configWarning_not_mem (f : Flags) (env : Env) (err : String) :
    configWarning err ∉
      [Event.log none
        ["msg", "Excluded databases", "databases", sprintfV (excludedDatabasesOf f)]]
      ++ deprecationEvents f ++ registrationEvents f env ++ (httpRun f env).trace := by
  rcases env with ⟨rc, ds, npc, vi, nlp, ls⟩
  by_cases h0 : f.metricsPath = "" <;> by_cases hs : f.metricsPath = "/" <;>
  by_cases hp : f.metricsPath = "/probe" <;>
  cases nlp <;> rcases ls with _ | _ | _ <;> cases npc <;>
  simp [registrationEvents, deprecationEvents, queriesWarning, discoveryWarning,
    labelsWarning, httpRun, landingRun, serveRun, configWarning, h0, hs, hp]

end PostgresExporter

/-- C3. A failed config load is not fatal (`main.go`, dumpmaps not set).  Whatever
`ReloadConfig` returns, `getDataSources` is called and the run ends the same way as with
a config that loaded.  When `ReloadConfig` returns an error, the warning for it is logged
exactly once, and from the `getDataSources` call on the run makes the very same calls as
the run in which the config loaded; when data-source resolution succeeds these include
`NewExporter` on the resolved list with the same options and the registration of the
exporter.  When the config loads, no such warning is logged. -/
theorem config_failure_not_fatal (f : PostgresExporter.Flags) (env : PostgresExporter.Env)
    (hd : f.onlyDumpMaps = false) :
    PostgresExporter.Event.getDataSources env.getDataSources
      ∈ (PostgresExporter.main f env).trace ∧
    (PostgresExporter.main f env).status
      = (PostgresExporter.main f { env with reloadConfig := none }).status ∧
    (env.reloadConfig = none →
      ∀ err, (PostgresExporter.main f env).trace.count
        (.log (some .warn) ["msg", "Error loading config", "err", err]) = 0) ∧
    (∀ err, env.reloadConfig = some err →
      (PostgresExporter.main f env).trace.count
        (.log (some .warn) ["msg", "Error loading config", "err", err]) = 1 ∧
      ∃ rest,
        (PostgresExporter.main f env).trace
          = [.kingpinParse, .reloadConfig f.configFile (some err),
             .log (some .warn) ["msg", "Error loading config", "err", err],
             .getDataSources env.getDataSources] ++ rest ∧
        (PostgresExporter.main f { env with reloadConfig := none }).trace
          = [.kingpinParse, .reloadConfig f.configFile none,
             .getDataSources env.getDataSources] ++ rest ∧
        (env.getDataSources.2 = none →
          PostgresExporter.Event.newExporter env.getDataSources.1
            [.DisableDefaultMetrics f.disableDefaultMetrics,
             .DisableSettingsMetrics f.disableSettingsMetrics,
             .AutoDiscoverDatabases f.autoDiscoverDatabases,
             .WithUserQueriesPath f.queriesPath,
             .WithConstantLabels f.constantLabelsList,
             .ExcludeDatabases (stringsSplit f.excludeDatabases ','),
             .IncludeDatabases f.includeDatabases] ∈ rest ∧
          PostgresExporter.Event.mustRegisterExporter (PostgresExporter.exporterOf f env)
            ∈ rest)) := by
  have hrun : ∀ env : PostgresExporter.Env, ∃ rest,
      (PostgresExporter.main f env).trace = PostgresExporter.resolveEvents f env ++ rest ∧
      (env.getDataSources.2 = none →
        PostgresExporter.Event.newExporter env.getDataSources.1 (PostgresExporter.optsOf f)
          ∈ rest ∧
        PostgresExporter.Event.mustRegisterExporter (PostgresExporter.exporterOf f env)
          ∈ rest) ∧
      (∀ err, (PostgresExporter.Event.log (some .warn)
          ["msg", "Error loading config", "err", err]) ∉ rest) ∧
      ∀ rc, (PostgresExporter.main f { env with reloadConfig := rc }).trace
        = PostgresExporter.resolveEvents f { env with reloadConfig := rc } ++ rest := by
    intro env
    cases he : env.getDataSources.2 with
    | some e =>
      refine ⟨_, by rw [PostgresExporter.main_unresolved f env e hd he], by simp,
        by simp, fun rc => ?_⟩
      rw [PostgresExporter.main_unresolved f _ e hd (by simpa using he)]
    | none =>
      refine ⟨_, by rw [PostgresExporter.main_resolved f env hd he]; simp only [List.append_assoc]; rfl,
        ?_, ?_, fun rc => ?_⟩
      · intro _
        simp [PostgresExporter.registrationEvents]
      · intro err
        simpa [PostgresExporter.configWarning] using
          PostgresExporter.configWarning_not_mem f env err
      · rw [PostgresExporter.main_resolved f _ hd (by simpa using he)]
        simp only [List.append_assoc]
        rfl
  obtain ⟨rest, h1, h2, h3, h4⟩ := hrun env
  refine ⟨?_, ?_, ?_, ?_⟩
  · rw [h1]
    simp [PostgresExporter.resolveEvents]
  · simp only [PostgresExporter.main_status]
  · intro hrc err
    rw [h1, List.count_append, List.count_eq_zero.mpr (h3 err)]
    simp [PostgresExporter.resolveEvents, hrc, List.count_cons]
  · intro err hrc
    refine ⟨?_, rest, ?_, ?_, ?_⟩
    · rw [h1, List.count_append, List.count_eq_zero.mpr (h3 err)]
      simp [PostgresExporter.resolveEvents, PostgresExporter.configWarning, hrc,
        List.count_cons]
    · rw [h1]
      simp [PostgresExporter.resolveEvents, PostgresExporter.configWarning, hrc]
    · rw [h4 none]
      simp [PostgresExporter.resolveEvents]
    · intro he
      simpa [PostgresExporter.optsOf, PostgresExporter.excludedDatabasesOf] using h2 he

/-- C3 at concrete inputs: no config file, one data source, everything else in order. -/
theorem config_failure_not_fatal_witness :
    PostgresExporter.defaultFlags.onlyDumpMaps = false ∧
    PostgresExporter.Event.getDataSources (["postgresql://db"], none)
      ∈ (PostgresExporter.main PostgresExporter.defaultFlags
          { PostgresExporter.quietEnv ["postgresql://db"] with
            reloadConfig := some "no such file" }).trace ∧
    (PostgresExporter.main PostgresExporter.defaultFlags
        { PostgresExporter.quietEnv ["postgresql://db"] with
          reloadConfig := some "no such file" }).status
      = (PostgresExporter.main PostgresExporter.defaultFlags
          (PostgresExporter.quietEnv ["postgresql://db"])).status :=
  ⟨rfl,
   (config_failure_not_fatal PostgresExporter.defaultFlags
      { PostgresExporter.quietEnv ["postgresql://db"] with
        reloadConfig := some "no such file" } rfl).1,
   (config_failure_not_fatal PostgresExporter.defaultFlags
      { PostgresExporter.quietEnv ["postgresql://db"] with
        reloadConfig := some "no such file" } rfl).2.1⟩

/-! ## Startup without a data source -/

/-- C4 as stated fails for `main.go`: with the default flags, `getDataSources` returning the
empty list and no error, the run is not ended by a failure exit; the exporter is
constructed on the empty list, the listener is opened and `main` returns with exit
code 0. -/
theorem empty_list_not_fatal :
    (PostgresExporter.quietEnv []).getDataSources = ([], none) ∧
    PostgresExporter.defaultFlags.onlyDumpMaps = false ∧
    PostgresExporter.Event.newExporter [] (PostgresExporter.optsOf PostgresExporter.defaultFlags)
      ∈ (PostgresExporter.main PostgresExporter.defaultFlags
          (PostgresExporter.quietEnv [])).trace ∧
    PostgresExporter.Event.listenAndServe (.returns none)
      ∈ (PostgresExporter.main PostgresExporter.defaultFlags
          (PostgresExporter.quietEnv [])).trace ∧
    (PostgresExporter.main PostgresExporter.defaultFlags
        (PostgresExporter.quietEnv [])).status.exitCode = some 0 := by
  rw [PostgresExporter.main_resolved _ _ rfl rfl]
  simp [PostgresExporter.quietEnv, PostgresExporter.defaultFlags, PostgresExporter.httpRun,
    PostgresExporter.landingRun, PostgresExporter.serveRun,
    PostgresExporter.registrationEvents, Status.exitCode]

/-- C4, amended.  Legacy entrypoint (dumpmaps not set): when `GetDataSources` returns a
slice of length 0 the run is flag parsing, the `GetDataSources` call and `log.Fatal`, exit
code 1; the exporter is not constructed, nothing is registered, no listener is opened.
`main.go` (dumpmaps not set): when `getDataSources` returns an error the process exits
with code 1 and the run contains no construction, registration or listener call; when it
returns the empty list and no error, the exporter is constructed on the empty list, it is
registered and the PostgresCollector is given the empty string as DSN. -/
theorem no_data_source (f : PostgresExporter.Flags) (env : PostgresExporter.Env)
    (g : Legacy.Flags) (genv : Legacy.Env)
    (hf : f.onlyDumpMaps = false) (hg : g.onlyDumpMaps = false)
    (hlen : genv.getDataSources.length = 0) :
    ((Legacy.main g genv).trace = [.kingpinParse, .getDataSources [], .logFatal
        (some "couldn't find environment variables describing the datasource to use")] ∧
      (Legacy.main g genv).status.exitCode = some 1 ∧
      ∀ e ∈ (Legacy.main g genv).trace, e.startsService = false) ∧
    (∀ err, env.getDataSources.2 = some err →
      (PostgresExporter.main f env).status.exitCode = some 1 ∧
      ∀ e ∈ (PostgresExporter.main f env).trace, e.startsService = false) ∧
    (env.getDataSources = ([], none) →
      PostgresExporter.Event.newExporter [] (PostgresExporter.optsOf f)
        ∈ (PostgresExporter.main f env).trace ∧
      PostgresExporter.Event.mustRegisterExporter
          { dsn := [], opts := PostgresExporter.optsOf f }
        ∈ (PostgresExporter.main f env).trace ∧
      PostgresExporter.Event.newPostgresCollector (stringsSplit f.excludeDatabases ',') "" []
        env.newPostgresCollector ∈ (PostgresExporter.main f env).trace) := by
  refine ⟨?_, ?_, ?_⟩
  · rw [Legacy.legacy_empty g genv hg (List.length_eq_zero.mp hlen)]
    simp [Status.exitCode, Legacy.Event.startsService]
  · intro err he
    rw [PostgresExporter.main_unresolved f env err hf he]
    refine ⟨rfl, ?_⟩
    cases hrc : env.reloadConfig <;>
    simp [PostgresExporter.resolveEvents, hrc, PostgresExporter.configWarning,
      PostgresExporter.Event.startsService]
  · intro he
    rw [PostgresExporter.main_resolved f env hf (by rw [he])]
    simp [PostgresExporter.registrationEvents, he, PostgresExporter.excludedDatabasesOf,
      PostgresExporter.exporterOf]

/-- C4 amended, at concrete inputs: default flags, no data source in either entrypoint. -/
theorem no_data_source_witness :
    PostgresExporter.defaultFlags.onlyDumpMaps = false ∧
    Legacy.defaultFlags.onlyDumpMaps = false ∧
    (Legacy.main Legacy.defaultFlags ⟨[], .blocks⟩).status.exitCode = some 1 ∧
    PostgresExporter.Event.mustRegisterExporter
        { dsn := [], opts := PostgresExporter.optsOf PostgresExporter.defaultFlags }
      ∈ (PostgresExporter.main PostgresExporter.defaultFlags
          (PostgresExporter.quietEnv [])).trace :=
  ⟨rfl, rfl,
   (no_data_source PostgresExporter.defaultFlags (PostgresExporter.quietEnv [])
      Legacy.defaultFlags ⟨[], .blocks⟩ rfl rfl rfl).1.2.1,
   ((no_data_source PostgresExporter.defaultFlags (PostgresExporter.quietEnv [])
      Legacy.defaultFlags ⟨[], .blocks⟩ rfl rfl rfl).2.2 rfl).2.1⟩


/-! ## Closing the server pool -/

namespace PostgresExporter

/-- Nothing up to the registration of the PostgresCollector closes the pool. -/
theorem isClose_head (f : Flags) (env : Env) :
    (resolveEvents f env ++
      [Event.log none
        ["msg", "Excluded databases", "databases", sprintfV (excludedDatabasesOf f)]]
      ++ deprecationEvents f ++ registrationEvents f env).countP Event.isClose = 0 := by
  cases hrc : env.reloadConfig <;> cases hnpc : env.newPostgresCollector <;>
  simp [resolveEvents, deprecationEvents, registrationEvents, configWarning, queriesWarning,
    discoveryWarning, labelsWarning, hrc, hnpc, Event.isClose, List.countP_cons,
    List.countP_append]

/-- From the probe handler on, the pool is closed once if the run ends in a return or a
panic and not at all otherwise. -/
theorem isClose_serveRun (f : Flags) (env : Env) :
    (serveRun f env).trace.countP Event.isClose =
      if (serveRun f env).status.runsDeferred then 1 else 0 := by
  by_cases hp : f.metricsPath = "/probe"
  · simp [serveRun, hp, Event.isClose, Status.runsDeferred, List.countP_cons]
  · rcases hls : env.listenAndServe with _ | _ | _ <;>
    simp [serveRun, hp, hls, Event.isClose, Status.runsDeferred, List.countP_cons]

/-- After the metrics handler, the pool is closed once if the run ends in a return or a
panic and not at all otherwise. -/
theorem isClose_landingRun (f : Flags) (env : Env) :
    (landingRun f env).trace.countP Event.isClose =
      if (landingRun f env).status.runsDeferred then 1 else 0 := by
  by_cases h4 : f.metricsPath ≠ "/" ∧ f.metricsPath ≠ ""
  · cases hnlp : env.newLandingPage with
    | some err =>
      simp [landingRun, h4, hnlp, Event.isClose, Status.runsDeferred, List.countP_cons]
    | none =>
      simp [landingRun, h4, hnlp, Event.isClose, List.countP_cons, isClose_serveRun]
  · simp only [landingRun, h4, if_false]
    exact isClose_serveRun f env

/-- The number of `exporter.servers.Close()` calls of a run: one when the exporter was
constructed and the run ends in a return of `main` or in a panic, none in every other
run. -/
theorem isClose_count (f : Flags) (env : Env) :
    (main f env).trace.countP Event.isClose =
      if f.onlyDumpMaps = false ∧ (main f env).status.runsDeferred then 1 else 0 := by
  cases hd : f.onlyDumpMaps
  · cases he : env.getDataSources.2 with
    | some err =>
      rw [main_unresolved f env err hd he]
      cases hrc : env.reloadConfig <;>
      simp [resolveEvents, hrc, configWarning, Event.isClose, Status.runsDeferred,
        List.countP_cons]
    | none =>
      rw [main_resolved f env hd he, List.countP_append, isClose_head f env]
      by_cases h0 : f.metricsPath = ""
      · simp [httpRun, h0, Event.isClose, Status.runsDeferred, List.countP_cons]
      · simp [httpRun, h0, Event.isClose, List.countP_cons, isClose_landingRun]
  · simp [main_dump f env hd, Event.isClose, List.countP_cons]

end PostgresExporter

/-- C5 is not met by the code.  In `main.go`, with the default flags and one data source:
when the listener returns an error, and also when the landing page cannot be built, the
exporter has been constructed, the process exits with code 1 and the pool's `Close` is
never called; when `main` returns it is called, once.  In the legacy entrypoint the run
that ends in `log.Fatal` on the listener's return has constructed the exporter and never
calls `Close`. -/
theorem close_skipped_on_exit :
    (PostgresExporter.Event.newExporter ["postgresql://db"]
        (PostgresExporter.optsOf PostgresExporter.defaultFlags)
      ∈ (PostgresExporter.main PostgresExporter.defaultFlags
          { PostgresExporter.quietEnv ["postgresql://db"] with
            listenAndServe := .returns (some "bind: address already in use") }).trace ∧
     (PostgresExporter.main PostgresExporter.defaultFlags
          { PostgresExporter.quietEnv ["postgresql://db"] with
            listenAndServe := .returns (some "bind: address already in use") }).status
        = .exited 1 ∧
     (PostgresExporter.main PostgresExporter.defaultFlags
          { PostgresExporter.quietEnv ["postgresql://db"] with
            listenAndServe := .returns (some "bind: address already in use") }).trace.countP
        PostgresExporter.Event.isClose = 0) ∧
    (PostgresExporter.Event.newExporter ["postgresql://db"]
        (PostgresExporter.optsOf PostgresExporter.defaultFlags)
      ∈ (PostgresExporter.main PostgresExporter.defaultFlags
          { PostgresExporter.quietEnv ["postgresql://db"] with
            newLandingPage := some "template" }).trace ∧
     (PostgresExporter.main PostgresExporter.defaultFlags
          { PostgresExporter.quietEnv ["postgresql://db"] with
            newLandingPage := some "template" }).status = .exited 1 ∧
     (PostgresExporter.main PostgresExporter.defaultFlags
          { PostgresExporter.quietEnv ["postgresql://db"] with
            newLandingPage := some "template" }).trace.countP
        PostgresExporter.Event.isClose = 0) ∧
    ((PostgresExporter.main PostgresExporter.defaultFlags
          (PostgresExporter.quietEnv ["postgresql://db"])).status = .returned ∧
     (PostgresExporter.main PostgresExporter.defaultFlags
          (PostgresExporter.quietEnv ["postgresql://db"])).trace.countP
        PostgresExporter.Event.isClose = 1) ∧
    (Legacy.Event.newExporter ["postgresql://db"] (Legacy.optsOf Legacy.defaultFlags)
      ∈ (Legacy.main Legacy.defaultFlags
          ⟨["postgresql://db"], .returns (some "bind: address already in use")⟩).trace ∧
     (Legacy.main Legacy.defaultFlags
          ⟨["postgresql://db"], .returns (some "bind: address already in use")⟩).status
        = .exited 1 ∧
     (Legacy.main Legacy.defaultFlags
          ⟨["postgresql://db"], .returns (some "bind: address already in use")⟩).trace.countP
        Legacy.Event.isClose = 0) := by
  refine ⟨⟨?_, ?_, ?_⟩, ⟨?_, ?_, ?_⟩, ⟨?_, ?_⟩, ?_⟩
  · rw [PostgresExporter.main_resolved _ _ rfl rfl]
    simp [PostgresExporter.registrationEvents, PostgresExporter.quietEnv]
  · rw [PostgresExporter.main_status]
    simp [PostgresExporter.quietEnv, PostgresExporter.defaultFlags]
  · rw [PostgresExporter.isClose_count, PostgresExporter.main_status]
    simp [PostgresExporter.quietEnv, PostgresExporter.defaultFlags, Status.runsDeferred]
  · rw [PostgresExporter.main_resolved _ _ rfl rfl]
    simp [PostgresExporter.registrationEvents, PostgresExporter.quietEnv]
  · rw [PostgresExporter.main_status]
    simp [PostgresExporter.quietEnv, PostgresExporter.defaultFlags]
  · rw [PostgresExporter.isClose_count, PostgresExporter.main_status]
    simp [PostgresExporter.quietEnv, PostgresExporter.defaultFlags, Status.runsDeferred]
  · rw [PostgresExporter.main_status]
    simp [PostgresExporter.quietEnv, PostgresExporter.defaultFlags]
  · rw [PostgresExporter.isClose_count, PostgresExporter.main_status]
    simp [PostgresExporter.quietEnv, PostgresExporter.defaultFlags, Status.runsDeferred]
  · rw [Legacy.legacy_nonempty _ _ rfl (by simp)]
    simp [Legacy.httpRun, Legacy.defaultFlags, Legacy.Event.isClose, List.countP_cons]

/-! ## Landing pages built and registered -/

namespace PostgresExporter

/-- No landing page is built or registered up to the registration of the
PostgresCollector. -/
theorem landing_head (f : Flags) (env : Env) :
    landingHandlers (resolveEvents f env ++
      [.log none ["msg", "Excluded databases", "databases", sprintfV (excludedDatabasesOf f)]]
      ++ deprecationEvents f ++ registrationEvents f env) = [] ∧
    landingPageCalls (resolveEvents f env ++
      [.log none ["msg", "Excluded databases", "databases", sprintfV (excludedDatabasesOf f)]]
      ++ deprecationEvents f ++ registrationEvents f env) = [] := by
  cases hrc : env.reloadConfig <;> cases hnpc : env.newPostgresCollector <;>
  simp [landingHandlers, landingPageCalls, resolveEvents, deprecationEvents,
    registrationEvents, configWarning, queriesWarning, discoveryWarning, labelsWarning,
    hrc, hnpc, List.filterMap_append, List.filterMap_cons]

/-- No landing page is built or registered from the probe handler on. -/
theorem landing_serveRun (f : Flags) (env : Env) :
    landingHandlers (serveRun f env).trace = [] ∧
    landingPageCalls (serveRun f env).trace = [] := by
  by_cases hp : f.metricsPath = "/probe"
  · simp [serveRun, hp, landingHandlers, landingPageCalls, List.filterMap_cons]
  · rcases hls : env.listenAndServe with _ | _ | _ <;>
    simp [serveRun, hp, hls, landingHandlers, landingPageCalls, List.filterMap_cons]

/-- The landing pages built and registered by a run that resolved its data sources. -/
theorem landing_resolved (f : Flags) (env : Env)
    (hd : f.onlyDumpMaps = false) (he : env.getDataSources.2 = none) :
    landingPageCalls (main f env).trace =
      (if f.metricsPath ≠ "/" ∧ f.metricsPath ≠ ""
        then [(landingConfigOf f env, env.newLandingPage)] else []) ∧
    landingHandlers (main f env).trace =
      (if (f.metricsPath ≠ "/" ∧ f.metricsPath ≠ "") ∧ env.newLandingPage = none
        then [("/", landingConfigOf f env)] else []) := by
  rw [main_resolved f env hd he]
  simp only [landingHandlers, landingPageCalls, List.filterMap_append]
  have h1 := landing_head f env
  have h2 := landing_serveRun f env
  simp only [landingHandlers, landingPageCalls, List.filterMap_append] at h1 h2
  rw [h1.1, h1.2]
  by_cases h0 : f.metricsPath = ""
  · simp [httpRun, h0, List.filterMap_cons]
  · by_cases hs : f.metricsPath = "/"
    · simp [httpRun, landingRun, hs, List.filterMap_cons, h2.1, h2.2]
    · cases hnlp : env.newLandingPage with
      | some err => simp [httpRun, landingRun, h0, hs, hnlp, List.filterMap_cons]
      | none => simp [httpRun, landingRun, h0, hs, hnlp, List.filterMap_cons, h2.1, h2.2]

end PostgresExporter

namespace Legacy

/-- The handlers registered by a run of the legacy entrypoint that constructs the exporter:
none when the metrics path is empty (the first registration panics), the metrics handler
alone when the metrics path is the root (the second registration panics), and otherwise
the metrics handler and the landing page. -/
theorem legacy_handlers (f : Flags) (env : Env)
    (hd : f.onlyDumpMaps = false) (he : env.getDataSources ≠ []) :
    handlers (main f env).trace =
      if f.metricPath = "" then []
      else if f.metricPath = "/" then [("/", .promhttp)]
      else [(f.metricPath, .promhttp), ("/", .writeLandingPage (landingPage f.metricPath))] := by
  rw [legacy_nonempty f env hd he]
  by_cases h0 : f.metricPath = ""
  · simp [httpRun, h0, handlers, List.filterMap_cons]
  · by_cases hs : f.metricPath = "/"
    · simp [httpRun, hs, handlers, List.filterMap_cons]
    · rcases hls : env.listenAndServe with _ | _ <;>
      simp [httpRun, h0, hs, hls, handlers, List.filterMap_cons]

end Legacy

/-! ## The landing page -/

/-- C6 as stated fails for `main.go`: with the default metrics path `/metrics`, which is
neither the root nor empty, and `web.NewLandingPage` returning an error, no landing-page
handler is registered (the process exits with code 1 instead). -/
theorem landing_page_not_registered_on_error :
    PostgresExporter.defaultFlags.metricsPath ≠ "/" ∧
    PostgresExporter.defaultFlags.metricsPath ≠ "" ∧
    PostgresExporter.landingHandlers
      (PostgresExporter.main PostgresExporter.defaultFlags
        { PostgresExporter.quietEnv ["postgresql://db"] with
          newLandingPage := some "template" }).trace = [] ∧
    (PostgresExporter.main PostgresExporter.defaultFlags
        { PostgresExporter.quietEnv ["postgresql://db"] with
          newLandingPage := some "template" }).status.exitCode = some 1 := by
  refine ⟨by decide, by decide, ?_, ?_⟩
  · rw [(PostgresExporter.landing_resolved _ _ rfl rfl).2]
    simp [PostgresExporter.quietEnv]
  · rw [PostgresExporter.main_status]
    simp [PostgresExporter.quietEnv, PostgresExporter.defaultFlags, Status.exitCode]

/-- C6, amended.  `main.go`, in a run that resolved its data sources (dumpmaps not set,
no error from `getDataSources`), for every metrics path `p`: `web.NewLandingPage` is called
exactly when `p` is neither `/` nor empty, once, with a config whose only link has address
`p` and text `Metrics`; the handler it returns is registered, on `/`, exactly when moreover
the call returned no error, and no other landing-page handler is registered; when the call
returns an error the process exits with code 1.  Legacy entrypoint, in a run that
constructs the exporter, for `p` neither `/` nor empty: exactly two handlers are
registered, the metrics handler on `p` and then the landing page on `/`, and the page's
HTML has the link `<a href='p'>Metrics</a>`. -/
theorem landing_page (f : PostgresExporter.Flags) (env : PostgresExporter.Env)
    (g : Legacy.Flags) (genv : Legacy.Env)
    (hf : f.onlyDumpMaps = false) (he : env.getDataSources.2 = none)
    (hg : g.onlyDumpMaps = false) (hne : genv.getDataSources ≠ [])
    (hp : g.metricPath ≠ "/") (hp0 : g.metricPath ≠ "") :
    (PostgresExporter.landingPageCalls (PostgresExporter.main f env).trace =
      (if f.metricsPath ≠ "/" ∧ f.metricsPath ≠ ""
        then [(PostgresExporter.landingConfigOf f env, env.newLandingPage)] else [])) ∧
    (PostgresExporter.landingHandlers (PostgresExporter.main f env).trace =
      (if (f.metricsPath ≠ "/" ∧ f.metricsPath ≠ "") ∧ env.newLandingPage = none
        then [("/", PostgresExporter.landingConfigOf f env)] else [])) ∧
    (PostgresExporter.landingConfigOf f env).Links
      = [{ Address := f.metricsPath, Text := "Metrics" }] ∧
    ((f.metricsPath ≠ "/" ∧ f.metricsPath ≠ "") → env.newLandingPage ≠ none →
      (PostgresExporter.main f env).status.exitCode = some 1) ∧
    Legacy.handlers (Legacy.main g genv).trace =
      [(g.metricPath, .promhttp),
       ("/", .writeLandingPage (Legacy.landingPage g.metricPath))] ∧
    Legacy.landingPage g.metricPath =
      "<html>\n\t<head><title>Postgres exporter</title></head>\n\t<body>\n\t<h1>Postgres exporter</h1>\n\t<p><a href='"
        ++ g.metricPath ++ "'>Metrics</a></p>\n\t</body>\n\t</html>\n\t" := by
  refine ⟨(PostgresExporter.landing_resolved f env hf he).1,
    (PostgresExporter.landing_resolved f env hf he).2, rfl, ?_, ?_, rfl⟩
  · intro h4 hnlp
    rw [PostgresExporter.main_status]
    simp [hf, he, h4, hnlp, Status.exitCode]
  · rw [Legacy.legacy_handlers g genv hg hne, if_neg hp0, if_neg hp]

/-- C6 amended, at concrete inputs: the default metrics path in both entrypoints. -/
theorem landing_page_witness :
    PostgresExporter.landingHandlers
      (PostgresExporter.main PostgresExporter.defaultFlags
        (PostgresExporter.quietEnv ["postgresql://db"])).trace
      = [("/", PostgresExporter.landingConfigOf PostgresExporter.defaultFlags
          (PostgresExporter.quietEnv ["postgresql://db"]))] ∧
    Legacy.handlers (Legacy.main Legacy.defaultFlags ⟨["postgresql://db"], .blocks⟩).trace
      = [("/metrics", .promhttp),
         ("/", .writeLandingPage (Legacy.landingPage "/metrics"))] :=
  ⟨(landing_page PostgresExporter.defaultFlags (PostgresExporter.quietEnv ["postgresql://db"])
      Legacy.defaultFlags ⟨["postgresql://db"], .blocks⟩ rfl rfl rfl (by simp)
      (by decide) (by decide)).2.1,
   (landing_page PostgresExporter.defaultFlags (PostgresExporter.quietEnv ["postgresql://db"])
      Legacy.defaultFlags ⟨["postgresql://db"], .blocks⟩ rfl rfl rfl (by simp)
      (by decide) (by decide)).2.2.2.2.1⟩

/-! ## The data sources of the collectors -/

namespace PostgresExporter

/-- From the registration of the metrics handler on, no collector is constructed or
registered. -/
theorem collectors_httpRun (f : Flags) (env : Env) :
    collectorCalls (httpRun f env).trace = [] ∧
    registeredCollectors (httpRun f env).trace = [] ∧
    registeredExporters (httpRun f env).trace = [] := by
  by_cases h0 : f.metricsPath = ""
  · simp [httpRun, h0, collectorCalls, registeredCollectors, registeredExporters,
      List.filterMap_cons]
  · by_cases hs : f.metricsPath = "/"
    · by_cases hp : f.metricsPath = "/probe"
      · simp [hs] at hp
      · rcases hls : env.listenAndServe with _ | _ | _ <;>
        simp [httpRun, landingRun, serveRun, hs, hls, collectorCalls,
          registeredCollectors, registeredExporters, List.filterMap_cons]
    · by_cases hp : f.metricsPath = "/probe" <;>
      cases hnlp : env.newLandingPage <;>
      rcases hls : env.listenAndServe with _ | _ | _ <;>
      simp [httpRun, landingRun, serveRun, h0, hs, hp, hnlp, hls, collectorCalls,
        registeredCollectors, registeredExporters, List.filterMap_cons]

/-- Before `NewExporter` no collector is constructed or registered. -/
theorem collectors_head (f : Flags) (env : Env) :
    collectorCalls (resolveEvents f env ++
      [.log none ["msg", "Excluded databases", "databases", sprintfV (excludedDatabasesOf f)]]
      ++ deprecationEvents f) = [] ∧
    registeredCollectors (resolveEvents f env ++
      [.log none ["msg", "Excluded databases", "databases", sprintfV (excludedDatabasesOf f)]]
      ++ deprecationEvents f) = [] ∧
    registeredExporters (resolveEvents f env ++
      [.log none ["msg", "Excluded databases", "databases", sprintfV (excludedDatabasesOf f)]]
      ++ deprecationEvents f) = [] := by
  cases hrc : env.reloadConfig <;>
  simp [collectorCalls, registeredCollectors, registeredExporters, resolveEvents,
    deprecationEvents, configWarning, queriesWarning, discoveryWarning, labelsWarning,
    hrc, List.filterMap_append, List.filterMap_cons]

/-- The collectors constructed and registered by a run that resolved its data sources. -/
theorem collectors_resolved (f : Flags) (env : Env)
    (hd : f.onlyDumpMaps = false) (he : env.getDataSources.2 = none) :
    collectorCalls (main f env).trace =
      [(excludedDatabasesOf f, env.getDataSources.1.headD "", [],
        env.newPostgresCollector)] ∧
    registeredCollectors (main f env).trace =
      (if env.newPostgresCollector = none then [collectorOf f env] else []) ∧
    registeredExporters (main f env).trace = [exporterOf f env] := by
  have h1 := collectors_head f env
  have h2 := collectors_httpRun f env
  rw [main_resolved f env hd he]
  simp only [collectorCalls, registeredCollectors, registeredExporters,
    List.filterMap_append] at h1 h2 ⊢
  rw [h1.1, h1.2.1, h1.2.2, h2.1, h2.2.1, h2.2.2]
  cases hnpc : env.newPostgresCollector <;>
  simp [registrationEvents, hnpc, List.filterMap_cons]

end PostgresExporter

/-- C7 as stated fails in its last part: with the default flags and the resolved list
`postgresql://a`, `postgresql://b`, the PostgresCollector is given `postgresql://a`, but the
exporter that `main` registers on the default registry was built by `NewExporter` from the
whole list, `postgresql://b` included. -/
theorem second_data_source_registered :
    PostgresExporter.collectorCalls
        (PostgresExporter.main PostgresExporter.defaultFlags
          (PostgresExporter.quietEnv ["postgresql://a", "postgresql://b"])).trace
      = [([""], "postgresql://a", [], none)] ∧
    PostgresExporter.registeredExporters
        (PostgresExporter.main PostgresExporter.defaultFlags
          (PostgresExporter.quietEnv ["postgresql://a", "postgresql://b"])).trace
      = [{ dsn := ["postgresql://a", "postgresql://b"],
           opts := PostgresExporter.optsOf PostgresExporter.defaultFlags }] ∧
    PostgresExporter.Event.newExporter ["postgresql://a", "postgresql://b"]
        (PostgresExporter.optsOf PostgresExporter.defaultFlags)
      ∈ (PostgresExporter.main PostgresExporter.defaultFlags
          (PostgresExporter.quietEnv ["postgresql://a", "postgresql://b"])).trace := by
  refine ⟨?_, ?_, ?_⟩
  · rw [(PostgresExporter.collectors_resolved _ _ rfl rfl).1]
    rfl
  · rw [(PostgresExporter.collectors_resolved _ _ rfl rfl).2.2]
    rfl
  · rw [PostgresExporter.main_resolved _ _ rfl rfl]
    simp [PostgresExporter.registrationEvents, PostgresExporter.quietEnv]

/-- C7, amended.  `main.go`, dumpmaps not set, `getDataSources` without error, for every
resolved list: `collector.NewPostgresCollector` is called exactly once and the DSN it is
given is the empty string when the list is empty and the first element when it is not; the
guarded `dsns[0]` is never out of range; the PostgresCollector, registered when its
construction returned no error, is built from that DSN, so that neither the call nor the
registered collector changes when the list is replaced by one with the same first element.
The whole list is handed to `NewExporter`, and the exporter built from it is the one
exporter registered on the default registry. -/
theorem first_data_source_only (f : PostgresExporter.Flags) (env : PostgresExporter.Env)
    (hf : f.onlyDumpMaps = false) (he : env.getDataSources.2 = none) :
    (PostgresExporter.main f env).status
      ≠ .panicked "runtime error: index out of range [0] with length 0" ∧
    (env.getDataSources.1 = [] →
      PostgresExporter.collectorCalls (PostgresExporter.main f env).trace
        = [(stringsSplit f.excludeDatabases ',', "", [], env.newPostgresCollector)]) ∧
    (∀ d rest, env.getDataSources.1 = d :: rest →
      PostgresExporter.collectorCalls (PostgresExporter.main f env).trace
        = [(stringsSplit f.excludeDatabases ',', d, [], env.newPostgresCollector)] ∧
      PostgresExporter.registeredCollectors (PostgresExporter.main f env).trace
        = (if env.newPostgresCollector = none
            then [{ excludeDatabases := stringsSplit f.excludeDatabases ',', dsn := d,
                    filters := [] }]
            else [])) ∧
    (∀ dsns, dsns.head? = env.getDataSources.1.head? →
      PostgresExporter.collectorCalls
          (PostgresExporter.main f { env with getDataSources := (dsns, none) }).trace
        = PostgresExporter.collectorCalls (PostgresExporter.main f env).trace ∧
      PostgresExporter.registeredCollectors
          (PostgresExporter.main f { env with getDataSources := (dsns, none) }).trace
        = PostgresExporter.registeredCollectors (PostgresExporter.main f env).trace) ∧
    PostgresExporter.Event.newExporter env.getDataSources.1 (PostgresExporter.optsOf f)
      ∈ (PostgresExporter.main f env).trace ∧
    PostgresExporter.registeredExporters (PostgresExporter.main f env).trace
      = [{ dsn := env.getDataSources.1, opts := PostgresExporter.optsOf f }] := by
  have h := PostgresExporter.collectors_resolved f env hf he
  refine ⟨?_, ?_, ?_, ?_, ?_, h.2.2⟩
  · rw [PostgresExporter.main_status]
    rcases env.listenAndServe with _ | _ | _ <;> split_ifs <;> simp
  · intro h0
    rw [h.1, h0]
    rfl
  · intro d rest h0
    rw [h.1, h.2.1, h0]
    exact ⟨rfl, by simp [PostgresExporter.collectorOf, PostgresExporter.excludedDatabasesOf, h0]⟩
  · intro dsns hh
    have h' := PostgresExporter.collectors_resolved f
      { env with getDataSources := (dsns, none) } hf rfl
    rw [h'.1, h'.2.1, h.1, h.2.1]
    simp [PostgresExporter.collectorOf, hh]
  · rw [PostgresExporter.main_resolved f env hf he]
    simp [PostgresExporter.registrationEvents]

/-- C7 amended, at concrete inputs: two data sources resolved, the first one reaches the
PostgresCollector. -/
theorem first_data_source_only_witness :
    PostgresExporter.defaultFlags.onlyDumpMaps = false ∧
    (PostgresExporter.quietEnv ["postgresql://a", "postgresql://b"]).getDataSources.2 = none ∧
    PostgresExporter.collectorCalls
        (PostgresExporter.main PostgresExporter.defaultFlags
          (PostgresExporter.quietEnv ["postgresql://a", "postgresql://b"])).trace
      = [([""], "postgresql://a", [], none)] :=
  ⟨rfl, rfl,
   ((first_data_source_only PostgresExporter.defaultFlags
      (PostgresExporter.quietEnv ["postgresql://a", "postgresql://b"]) rfl rfl).2.2.1
      "postgresql://a" ["postgresql://b"] rfl).1⟩

/-! ## Deprecation warnings -/

namespace PostgresExporter

/-- Outside the block of deprecation checks a run logs no warning, apart from those for a
failed config load and a failed collector construction. -/
theorem warn_not_mem_outside (f : Flags) (env : Env) (msg : String) (rest : List String)
    (h1 : msg ≠ "Error loading config") (h2 : msg ≠ "Failed to create PostgresCollector") :
    Event.log (some .warn) ("msg" :: msg :: rest) ∉
      resolveEvents f env ++ [.log none ["msg", "Excluded databases", "databases",
        sprintfV (excludedDatabasesOf f)]] ∧
    Event.log (some .warn) ("msg" :: msg :: rest) ∉
      registrationEvents f env ++ (httpRun f env).trace := by
  rcases env with ⟨rc, ds, npc, vi, nlp, ls⟩
  constructor
  · cases rc <;> simp [resolveEvents, configWarning, h1]
  · by_cases h0 : f.metricsPath = "" <;> by_cases hs : f.metricsPath = "/" <;>
    by_cases hp : f.metricsPath = "/probe" <;>
    cases nlp <;> rcases ls with _ | _ | _ <;> cases npc <;>
    simp [registrationEvents, httpRun, landingRun, serveRun, h0, hs, hp, h2]

/-- How often a warning is logged in a run that resolved its data sources: as often as in
the block of deprecation checks. -/
theorem count_warning (f : Flags) (env : Env) (msg : String) (rest : List String)
    (hd : f.onlyDumpMaps = false) (he : env.getDataSources.2 = none)
    (h1 : msg ≠ "Error loading config") (h2 : msg ≠ "Failed to create PostgresCollector") :
    (main f env).trace.count (.log (some .warn) ("msg" :: msg :: rest))
      = (deprecationEvents f).count (.log (some .warn) ("msg" :: msg :: rest)) := by
  rw [main_resolved f env hd he]
  have h := warn_not_mem_outside f env msg rest h1 h2
  rw [List.append_assoc, List.count_append, List.count_append,
    List.count_eq_zero.mpr h.1, List.count_eq_zero.mpr h.2]
  simp

/-- The deprecation warnings of the block of deprecation checks, counted. -/
theorem count_deprecationEvents (f : Flags) :
    (deprecationEvents f).count (queriesWarning f) = (if f.queriesPath ≠ "" then 1 else 0) ∧
    (deprecationEvents f).count discoveryWarning =
      (if f.autoDiscoverDatabases = true ∨ f.excludeDatabases ≠ "" ∨ f.includeDatabases ≠ ""
        then 1 else 0) ∧
    (deprecationEvents f).count labelsWarning =
      (if f.constantLabelsList ≠ "" then 1 else 0) := by
  simp only [deprecationEvents, List.count_append]
  refine ⟨?_, ?_, ?_⟩ <;>
  split_ifs <;>
  simp [queriesWarning, discoveryWarning, labelsWarning, List.count_cons]

/-- A run that resolved its data sources opens the listener, once, unless a registration
panics or the landing page could not be built. -/
theorem listen_mem (f : Flags) (env : Env) (r : ListenResult)
    (hd : f.onlyDumpMaps = false) (he : env.getDataSources.2 = none) :
    Event.listenAndServe r ∈ (main f env).trace ↔
      r = env.listenAndServe ∧ f.metricsPath ≠ "" ∧ f.metricsPath ≠ "/probe" ∧
      ¬ (f.metricsPath ≠ "/" ∧ env.newLandingPage ≠ none) := by
  have hhead : Event.listenAndServe r ∉ resolveEvents f env ++
      [.log none ["msg", "Excluded databases", "databases", sprintfV (excludedDatabasesOf f)]]
      ++ deprecationEvents f ++ registrationEvents f env := by
    cases hrc : env.reloadConfig <;> cases hnpc : env.newPostgresCollector <;>
    simp [resolveEvents, deprecationEvents, registrationEvents, configWarning,
      queriesWarning, discoveryWarning, labelsWarning, hrc, hnpc]
  have htail : Event.listenAndServe r ∈ (httpRun f env).trace ↔
      r = env.listenAndServe ∧ f.metricsPath ≠ "" ∧ f.metricsPath ≠ "/probe" ∧
      ¬ (f.metricsPath ≠ "/" ∧ env.newLandingPage ≠ none) := by
    by_cases h0 : f.metricsPath = ""
    · simp [httpRun, h0]
    · by_cases hs : f.metricsPath = "/"
      · rcases hls : env.listenAndServe with _ | _ | _ <;>
        simp [httpRun, landingRun, serveRun, hs, hls]
      · by_cases hp : f.metricsPath = "/probe" <;>
        cases hnlp : env.newLandingPage <;>
        rcases hls : env.listenAndServe with _ | _ | _ <;>
        simp [httpRun, landingRun, serveRun, h0, hs, hp, hnlp, hls]
  rw [main_resolved f env hd he, List.mem_append, htail]
  constructor
  · rintro (h | h)
    · exact absurd h hhead
    · exact h
  · exact Or.inr

end PostgresExporter

/-- C8. Deprecated-feature usage is warned once and never blocks (`main.go`, dumpmaps not
set, `getDataSources` without error, every flag setting).  Each deprecation warning is
logged at most once: the extended-queries warning exactly when the query path is not
empty, the auto-discovery warning exactly when auto-discover is set or the exclude list or
the include list is not empty, the constant-labels warning exactly when the
constant-labels flag is not empty.  Whichever of them fire, right after the checks
`NewExporter` is called with the seven options and the version collector and that
exporter are registered.  From there the run goes on as it does for any other setting of
the deprecated flags: how it ends and whether `web.ListenAndServe` is called depend on
the metrics path and on the results of the external calls only.  The listener is opened,
once, unless a handler registration panics (empty metrics path, metrics path `/probe`) or
`web.NewLandingPage` returns an error. -/
theorem deprecation_warnings (f : PostgresExporter.Flags) (env : PostgresExporter.Env)
    (hf : f.onlyDumpMaps = false) (he : env.getDataSources.2 = none) :
    ((PostgresExporter.main f env).trace.count
        (.log (some .warn) ["msg", "The extended queries.yaml config is DEPRECATED",
                            "file", f.queriesPath])
      = if f.queriesPath ≠ "" then 1 else 0) ∧
    ((PostgresExporter.main f env).trace.count
        (.log (some .warn)
          ["msg", "Scraping additional databases via auto discovery is DEPRECATED"])
      = if f.autoDiscoverDatabases = true ∨ f.excludeDatabases ≠ "" ∨ f.includeDatabases ≠ ""
        then 1 else 0) ∧
    ((PostgresExporter.main f env).trace.count
        (.log (some .warn) ["msg", "Constant labels on all metrics is DEPRECATED"])
      = if f.constantLabelsList ≠ "" then 1 else 0) ∧
    (∃ pre post, (PostgresExporter.main f env).trace =
      pre ++ PostgresExporter.deprecationEvents f ++
        [.newExporter env.getDataSources.1
            [.DisableDefaultMetrics f.disableDefaultMetrics,
             .DisableSettingsMetrics f.disableSettingsMetrics,
             .AutoDiscoverDatabases f.autoDiscoverDatabases,
             .WithUserQueriesPath f.queriesPath,
             .WithConstantLabels f.constantLabelsList,
             .ExcludeDatabases (stringsSplit f.excludeDatabases ','),
             .IncludeDatabases f.includeDatabases],
          .mustRegisterVersion "postgres_exporter",
          .mustRegisterExporter (PostgresExporter.exporterOf f env)] ++ post) ∧
    (∀ f' : PostgresExporter.Flags, f'.onlyDumpMaps = false →
      f'.metricsPath = f.metricsPath →
      (PostgresExporter.main f' env).status = (PostgresExporter.main f env).status ∧
      ∀ r, PostgresExporter.Event.listenAndServe r ∈ (PostgresExporter.main f' env).trace ↔
        PostgresExporter.Event.listenAndServe r ∈ (PostgresExporter.main f env).trace) ∧
    (∀ r, PostgresExporter.Event.listenAndServe r ∈ (PostgresExporter.main f env).trace ↔
      r = env.listenAndServe ∧ f.metricsPath ≠ "" ∧ f.metricsPath ≠ "/probe" ∧
      ¬ (f.metricsPath ≠ "/" ∧ env.newLandingPage ≠ none)) := by
  refine ⟨?_, ?_, ?_, ?_, ?_, fun r => PostgresExporter.listen_mem f env r hf he⟩
  · rw [PostgresExporter.count_warning f env _ _ hf he (by decide) (by decide)]
    exact (PostgresExporter.count_deprecationEvents f).1
  · rw [PostgresExporter.count_warning f env _ _ hf he (by decide) (by decide)]
    exact (PostgresExporter.count_deprecationEvents f).2.1
  · rw [PostgresExporter.count_warning f env _ _ hf he (by decide) (by decide)]
    exact (PostgresExporter.count_deprecationEvents f).2.2
  · refine ⟨PostgresExporter.resolveEvents f env ++ [.log none ["msg", "Excluded databases",
        "databases", sprintfV (PostgresExporter.excludedDatabasesOf f)]],
      (PostgresExporter.registrationEvents f env).drop 3
        ++ (PostgresExporter.httpRun f env).trace, ?_⟩
    rw [PostgresExporter.main_resolved f env hf he]
    simp [PostgresExporter.registrationEvents, PostgresExporter.optsOf,
      PostgresExporter.excludedDatabasesOf, PostgresExporter.exporterName]
  · intro f' hf' hpath
    refine ⟨?_, fun r => ?_⟩
    · simp only [PostgresExporter.main_status, hf', hf, hpath]
    · rw [PostgresExporter.listen_mem f' env r hf' he,
        PostgresExporter.listen_mem f env r hf he, hpath]

/-- C8 at concrete inputs: all three deprecated features in use, every call succeeding;
the listener is opened. -/
theorem deprecation_warnings_witness :
    PostgresExporter.Event.listenAndServe (.returns none) ∈
      (PostgresExporter.main
        { PostgresExporter.defaultFlags with
          queriesPath := "queries.yaml", autoDiscoverDatabases := true,
          constantLabelsList := "env=prod" }
        (PostgresExporter.quietEnv ["postgresql://db"])).trace :=
  ((deprecation_warnings
      { PostgresExporter.defaultFlags with
        queriesPath := "queries.yaml", autoDiscoverDatabases := true,
        constantLabelsList := "env=prod" }
      (PostgresExporter.quietEnv ["postgresql://db"]) rfl rfl).2.2.2.2.2 (.returns none)).mpr
    ⟨rfl, by decide, by decide, by simp [PostgresExporter.quietEnv]⟩

/-! ## `strings.Split` -/

/-- The loop yields one piece more than there are separators left to read. -/
theorem splitLoop_length (sep : Char) (cs acc : List Char) :
    (splitLoop sep acc cs).length = cs.count sep + 1 := by
  induction cs generalizing acc with
  | nil => simp [splitLoop]
  | cons c cs ih =>
    by_cases h : c = sep
    · simp [splitLoop, h, ih]
    · simp [splitLoop, h, ih, List.count_cons]

/-- Joining the pieces with the separator gives back what was read. -/
theorem splitLoop_intercalate (sep : Char) (cs acc : List Char) :
    List.intercalate [sep] (splitLoop sep acc cs) = acc.reverse ++ cs := by
  induction cs generalizing acc with
  | nil => simp [splitLoop, List.intercalate]
  | cons c cs ih =>
    by_cases h : c = sep
    · have hne : splitLoop sep [] cs ≠ [] := by
        intro h0
        have := splitLoop_length sep cs []
        rw [h0] at this
        simp at this
      have := ih []
      obtain ⟨w, ws, hw⟩ := List.exists_cons_of_ne_nil hne
      rw [hw] at this
      simp [splitLoop, h, hw, List.intercalate, List.intersperse] at this ⊢
      exact this
    · simp [splitLoop, h, ih]

/-- No piece contains the separator. -/
theorem splitLoop_no_sep (sep : Char) (cs acc : List Char) (hacc : sep ∉ acc) :
    ∀ w ∈ splitLoop sep acc cs, sep ∉ w := by
  induction cs generalizing acc with
  | nil => simpa [splitLoop] using hacc
  | cons c cs ih =>
    by_cases h : c = sep
    · intro w hw
      simp only [splitLoop, h, if_true, List.mem_cons] at hw
      rcases hw with rfl | hw
      · simpa using hacc
      · exact ih [] (by simp) w hw
    · intro w hw
      simp only [splitLoop, h, if_false] at hw
      exact ih (c :: acc) (by simp [hacc, Ne.symm h]) w hw

/-! ## The list of excluded databases -/

namespace PostgresExporter

/-- The excluded-database lists handed over by a run that resolved its data sources. -/
theorem excludedLists_resolved (f : Flags) (env : Env)
    (hd : f.onlyDumpMaps = false) (he : env.getDataSources.2 = none) :
    excludedLists (main f env).trace =
      excludedDatabasesOf f :: excludedDatabasesOf f ::
        (if f.metricsPath ≠ "" ∧ f.metricsPath ≠ "/probe" ∧
            ¬ (f.metricsPath ≠ "/" ∧ env.newLandingPage ≠ none)
          then [excludedDatabasesOf f] else []) := by
  have htail : excludedLists (httpRun f env).trace =
      (if f.metricsPath ≠ "" ∧ f.metricsPath ≠ "/probe" ∧
          ¬ (f.metricsPath ≠ "/" ∧ env.newLandingPage ≠ none)
        then [excludedDatabasesOf f] else []) := by
    by_cases h0 : f.metricsPath = ""
    · simp [httpRun, h0, excludedLists]
    · by_cases hs : f.metricsPath = "/"
      · rcases hls : env.listenAndServe with _ | _ | _ <;>
        simp [httpRun, landingRun, serveRun, hs, hls, excludedLists]
      · by_cases hp : f.metricsPath = "/probe" <;>
        cases hnlp : env.newLandingPage <;>
        rcases hls : env.listenAndServe with _ | _ | _ <;>
        simp [httpRun, landingRun, serveRun, h0, hs, hp, hnlp, hls, excludedLists]
  have hdep : excludedLists (deprecationEvents f) = [] := by
    simp only [excludedLists, deprecationEvents, List.flatMap_append]
    split_ifs <;> simp [queriesWarning, discoveryWarning, labelsWarning]
  have hres : excludedLists (resolveEvents f env) = [] := by
    cases hrc : env.reloadConfig <;>
    simp [excludedLists, resolveEvents, hrc, configWarning]
  rw [main_resolved f env hd he]
  simp only [excludedLists, List.flatMap_append] at htail hdep hres ⊢
  rw [htail, hdep, hres]
  cases hnpc : env.newPostgresCollector <;>
  simp [registrationEvents, hnpc, optsOf]

/-- A run in dump mode, or one in which `getDataSources` returns an error, hands over no
excluded-database list. -/
theorem excludedLists_early (f : Flags) (env : Env)
    (h : f.onlyDumpMaps = true ∨ env.getDataSources.2 ≠ none) :
    excludedLists (main f env).trace = [] := by
  cases hd : f.onlyDumpMaps
  · cases he : env.getDataSources.2 with
    | none => simp [hd, he] at h
    | some err =>
      rw [main_unresolved f env err hd he]
      cases hrc : env.reloadConfig <;>
      simp [excludedLists, resolveEvents, hrc, configWarning]
  · simp [main_dump f env hd, excludedLists]

end PostgresExporter

/-- C10. The excluded-database list of `main.go`.  Every list that a run hands to the
`ExcludeDatabases` option, to `collector.NewPostgresCollector` and to `handleProbe` is the
exclude-databases flag split at its commas; a run that gets as far as registering the
probe handler hands it over three times, in that order.  The split keeps everything:
joining the items with commas gives back the flag and no item contains a comma, so a flag
with `k` commas gives `k + 1` items and the list is never empty.  The empty flag gives the
list whose one item is the empty string; `template0,template1` gives `template0` and
`template1`. -/
theorem excluded_databases (f : PostgresExporter.Flags) (env : PostgresExporter.Env) :
    (∀ l ∈ PostgresExporter.excludedLists (PostgresExporter.main f env).trace,
      l = stringsSplit f.excludeDatabases ',') ∧
    (f.onlyDumpMaps = false → env.getDataSources.2 = none →
      f.metricsPath ≠ "" → f.metricsPath ≠ "/probe" →
      ¬ (f.metricsPath ≠ "/" ∧ env.newLandingPage ≠ none) →
      PostgresExporter.excludedLists (PostgresExporter.main f env).trace =
        [stringsSplit f.excludeDatabases ',', stringsSplit f.excludeDatabases ',',
         stringsSplit f.excludeDatabases ',']) ∧
    (stringsSplit f.excludeDatabases ',').length = f.excludeDatabases.data.count ',' + 1 ∧
    stringsSplit f.excludeDatabases ',' ≠ [] ∧
    List.intercalate [','] ((stringsSplit f.excludeDatabases ',').map String.data)
      = f.excludeDatabases.data ∧
    (∀ item ∈ stringsSplit f.excludeDatabases ',', ',' ∉ item.data) ∧
    stringsSplit "" ',' = [""] ∧
    stringsSplit "template0,template1" ',' = ["template0", "template1"] := by
  have hlen : (stringsSplit f.excludeDatabases ',').length
      = f.excludeDatabases.data.count ',' + 1 := by
    simp [stringsSplit, splitChars, splitLoop_length]
  have hdata : (stringsSplit f.excludeDatabases ',').map String.data
      = splitChars ',' f.excludeDatabases.data := by
    simp [stringsSplit, Function.comp_def]
  refine ⟨?_, ?_, hlen, ?_, ?_, ?_, by decide, by decide⟩
  · intro l hl
    by_cases h : f.onlyDumpMaps = true ∨ env.getDataSources.2 ≠ none
    · rw [PostgresExporter.excludedLists_early f env h] at hl
      simp at hl
    · have hd : f.onlyDumpMaps = false := by
        cases hb : f.onlyDumpMaps <;> simp_all
      have he : env.getDataSources.2 = none := by
        cases ho : env.getDataSources.2 <;> simp_all
      rw [PostgresExporter.excludedLists_resolved f env hd he] at hl
      split_ifs at hl <;> simp [PostgresExporter.excludedDatabasesOf] at hl <;> exact hl
  · intro hd he h0 hp hland
    rw [PostgresExporter.excludedLists_resolved f env hd he, if_pos ⟨h0, hp, hland⟩]
    rfl
  · intro h0
    rw [h0] at hlen
    simp at hlen
  · rw [hdata]
    simpa [splitChars] using splitLoop_intercalate ',' f.excludeDatabases.data []
  · intro item hitem
    have : item.data ∈ splitChars ',' f.excludeDatabases.data := by
      rw [← hdata]
      exact List.mem_map_of_mem _ hitem
    exact splitLoop_no_sep ',' _ [] (by simp) _ this
